import Mathlib

/-!
# tgo: discriminator resolution and method generation

A shallow embedding of

* `api.unmarshaler.go`: the seven resolvers that peek at a discriminator,
  pick a variant and decode the payload into it;
* `internal/codegen/method.go`: `GenerateMethod` and its two helpers;
* `sendable.go`: the chat identifier, parse mode and reply methods of the
  request types, `Bot.Send` and `unmarshalChatID`.

The resolvers call `json.Unmarshal` twice: once into a small anonymous probe
struct and once into the selected variant.  The decoder is a collaborator of
the resolvers, so the resolvers are written over an arbitrary `Unmarshaler`;
section `Json` gives one concrete decoder and encoder over parsed documents,
used to run the resolvers on explicit payloads and to prove the round trip.
-/

set_option autoImplicit false

namespace Tgo

/-! ## Errors -/

/-- Error values produced by `encoding/json` itself. -/
inductive JsonError where
  /-- The bytes are not a JSON text (`*json.SyntaxError`). -/
  | SyntaxError (msg : String)
  /-- A JSON value does not fit the Go field it is stored into
  (`*json.UnmarshalTypeError`): the kind of the value and the field. -/
  | UnmarshalTypeError (value : String) (field : String)
  deriving DecidableEq, Repr

/-- Go `error` values that occur in or around the resolvers. -/
inductive Error where
  /-- The value of `errors.New(msg)`. -/
  | errorsNew (msg : String)
  /-- An error of the JSON decoder, handed on as it is. -/
  | json (e : JsonError)
  /-- An error wrapped with context, as `fmt.Errorf("context: %w", inner)`
  builds it.  No resolver constructs one. -/
  | wrap (context : String) (inner : Error)
  deriving DecidableEq, Repr

/-! ## The decoder the resolvers call -/

/-- The two uses a resolver makes of `json.Unmarshal`.

* `probe rawBytes` is `json.Unmarshal(rawBytes, &temp)` for the resolver's
  anonymous probe struct: the filled probe, or the decoder's error.  The probe
  structs have only `string`, `int64` and pointer fields, so the error is one
  of `encoding/json`.
* `decode k rawBytes` is `json.Unmarshal(rawBytes, data)` for `data` a pointer
  to a fresh zero value of variant `k`: the state of the target afterwards
  and the returned error (`none` is `nil`).  The target may have been filled
  in part when an error is returned, and the error may come from a nested
  decoder. -/
structure Unmarshaler (Raw P K : Type) (T : K → Type) where
  probe : Raw → Except JsonError P
  decode : (k : K) → Raw → T k × Option Error

/-- What a resolver returns: the pair `(data, err)`.  `data` is an interface
value, `none` for `nil`, otherwise the dynamic type `k` with the pointee. -/
abbrev Resolved (K : Type) (T : K → Type) : Type := Option (Sigma T) × Option Error

/-- The common tail of every resolver, once `data` points to a fresh value of
variant `k`: `err = json.Unmarshal(rawBytes, data); return data, err`. -/
def decodeInto {Raw P K : Type} {T : K → Type} (J : Unmarshaler Raw P K T)
    (k : K) (rawBytes : Raw) : Resolved K T :=
  (some ⟨k, (J.decode k rawBytes).1⟩, (J.decode k rawBytes).2)

/-! ## Variant families -/

/-- The concrete types behind `MaybeInaccessibleMessage`. -/
inductive MaybeInaccessibleMessageVariant where
  | InaccessibleMessage | Message
  deriving DecidableEq, Repr

/-- The concrete types behind `MessageOrigin`. -/
inductive MessageOriginVariant where
  | MessageOriginUser | MessageOriginHiddenUser | MessageOriginChat | MessageOriginChannel
  deriving DecidableEq, Repr

/-- The concrete types behind `ChatMember`. -/
inductive ChatMemberVariant where
  | ChatMemberOwner | ChatMemberAdministrator | ChatMemberMember
  | ChatMemberRestricted | ChatMemberLeft | ChatMemberBanned
  deriving DecidableEq, Repr

/-- The concrete types behind `ReactionType`. -/
inductive ReactionTypeVariant where
  | ReactionTypeEmoji | ReactionTypeCustomEmoji
  deriving DecidableEq, Repr

/-- The concrete types behind `MenuButton`. -/
inductive MenuButtonVariant where
  | MenuButtonCommands | MenuButtonWebApp | MenuButtonDefault
  deriving DecidableEq, Repr

/-- The concrete types behind `ChatBoostSource`. -/
inductive ChatBoostSourceVariant where
  | ChatBoostSourcePremium | ChatBoostSourceGiftCode | ChatBoostSourceGiveaway
  deriving DecidableEq, Repr

/-- The concrete types behind `InputMessageContent`. -/
inductive InputMessageContentVariant where
  | InputTextMessageContent | InputVenueMessageContent | InputLocationMessageContent
  | InputContactMessageContent | InputInvoiceMessageContent
  deriving DecidableEq, Repr

/-- The probe struct of `unmarshalInputMessageContent`: five pointer fields,
`none` for `nil`.  `Float64` stands for Go's `float64`; only the presence of
`Latitude` is ever inspected. -/
structure InputMessageContentProbe (Float64 : Type) where
  MessageText : Option String
  Latitude : Option Float64
  Address : Option String
  PhoneNumber : Option String
  Description : Option String

/-! ## The resolvers (`api.unmarshaler.go`) -/

section Resolvers

variable {Raw : Type}

/-- `unmarshalMaybeInaccessibleMessage`: the probe is `struct{Date int64}`,
here the value of its one field. -/
def unmarshalMaybeInaccessibleMessage {T : MaybeInaccessibleMessageVariant → Type}
    (J : Unmarshaler Raw Int MaybeInaccessibleMessageVariant T) (rawBytes : Raw) :
    Resolved MaybeInaccessibleMessageVariant T :=
  match J.probe rawBytes with
  | .error err => (none, some (Error.json err))
  | .ok temp =>
    if temp = 0 then decodeInto J .InaccessibleMessage rawBytes
    else decodeInto J .Message rawBytes

/-- `unmarshalMessageOrigin`: the probe is `struct{Type string}`,
here the value of its one field. -/
def unmarshalMessageOrigin {T : MessageOriginVariant → Type}
    (J : Unmarshaler Raw String MessageOriginVariant T) (rawBytes : Raw) :
    Resolved MessageOriginVariant T :=
  match J.probe rawBytes with
  | .error err => (none, some (Error.json err))
  | .ok temp =>
    if temp = "user" then decodeInto J .MessageOriginUser rawBytes
    else if temp = "hidden_user" then decodeInto J .MessageOriginHiddenUser rawBytes
    else if temp = "chat" then decodeInto J .MessageOriginChat rawBytes
    else if temp = "channel" then decodeInto J .MessageOriginChannel rawBytes
    else (none, some (Error.errorsNew "unknown type"))

/-- `unmarshalChatMember`: the probe is `struct{Status string}`,
here the value of its one field. -/
def unmarshalChatMember {T : ChatMemberVariant → Type}
    (J : Unmarshaler Raw String ChatMemberVariant T) (rawBytes : Raw) :
    Resolved ChatMemberVariant T :=
  match J.probe rawBytes with
  | .error err => (none, some (Error.json err))
  | .ok temp =>
    if temp = "creator" then decodeInto J .ChatMemberOwner rawBytes
    else if temp = "administrator" then decodeInto J .ChatMemberAdministrator rawBytes
    else if temp = "member" then decodeInto J .ChatMemberMember rawBytes
    else if temp = "restricted" then decodeInto J .ChatMemberRestricted rawBytes
    else if temp = "left" then decodeInto J .ChatMemberLeft rawBytes
    else if temp = "kicked" then decodeInto J .ChatMemberBanned rawBytes
    else (none, some (Error.errorsNew "unknown type"))

/-- `unmarshalReactionType`: the probe is `struct{Type string}`,
here the value of its one field. -/
def unmarshalReactionType {T : ReactionTypeVariant → Type}
    (J : Unmarshaler Raw String ReactionTypeVariant T) (rawBytes : Raw) :
    Resolved ReactionTypeVariant T :=
  match J.probe rawBytes with
  | .error err => (none, some (Error.json err))
  | .ok temp =>
    if temp = "emoji" then decodeInto J .ReactionTypeEmoji rawBytes
    else if temp = "custom_emoji" then decodeInto J .ReactionTypeCustomEmoji rawBytes
    else (none, some (Error.errorsNew "unknown type"))

/-- `unmarshalMenuButton`: the probe is `struct{Type string}`,
here the value of its one field. -/
def unmarshalMenuButton {T : MenuButtonVariant → Type}
    (J : Unmarshaler Raw String MenuButtonVariant T) (rawBytes : Raw) :
    Resolved MenuButtonVariant T :=
  match J.probe rawBytes with
  | .error err => (none, some (Error.json err))
  | .ok temp =>
    if temp = "commands" then decodeInto J .MenuButtonCommands rawBytes
    else if temp = "web_app" then decodeInto J .MenuButtonWebApp rawBytes
    else if temp = "default" then decodeInto J .MenuButtonDefault rawBytes
    else (none, some (Error.errorsNew "unknown type"))

/-- `unmarshalChatBoostSource`: the probe is `struct{Source string}`,
here the value of its one field. -/
def unmarshalChatBoostSource {T : ChatBoostSourceVariant → Type}
    (J : Unmarshaler Raw String ChatBoostSourceVariant T) (rawBytes : Raw) :
    Resolved ChatBoostSourceVariant T :=
  match J.probe rawBytes with
  | .error err => (none, some (Error.json err))
  | .ok temp =>
    if temp = "premium" then decodeInto J .ChatBoostSourcePremium rawBytes
    else if temp = "gift_code" then decodeInto J .ChatBoostSourceGiftCode rawBytes
    else if temp = "giveaway" then decodeInto J .ChatBoostSourceGiveaway rawBytes
    else (none, some (Error.errorsNew "unknown type"))

/-- `unmarshalInputMessageContent`: the probe has the five pointer fields of
`InputMessageContentProbe`; the `switch` tests them in the order written. -/
def unmarshalInputMessageContent {Float64 : Type} {T : InputMessageContentVariant → Type}
    (J : Unmarshaler Raw (InputMessageContentProbe Float64) InputMessageContentVariant T)
    (rawBytes : Raw) : Resolved InputMessageContentVariant T :=
  match J.probe rawBytes with
  | .error err => (none, some (Error.json err))
  | .ok temp =>
    if temp.MessageText.isSome then decodeInto J .InputTextMessageContent rawBytes
    else if temp.Address.isSome then decodeInto J .InputVenueMessageContent rawBytes
    else if temp.Latitude.isSome then decodeInto J .InputLocationMessageContent rawBytes
    else if temp.PhoneNumber.isSome then decodeInto J .InputContactMessageContent rawBytes
    else if temp.Description.isSome then decodeInto J .InputInvoiceMessageContent rawBytes
    else (none, some (Error.errorsNew "unknown type"))

end Resolvers

/-! ## A model of `encoding/json` on parsed documents

The bytes of a raw message are seen through the JSON grammar: either they are
not a JSON text, or they denote a value.  Objects are decoded into structs the
way `json.Unmarshal` does it for the field types that occur here: members
are visited in document order, a key is looked up among the struct's field
tags, unknown keys are skipped, `null` leaves a non-pointer field alone, and a
value that does not fit its field is recorded as a type error while decoding
goes on.  Keys are compared exactly.  Numbers are integer literals. -/

namespace Json

/-- A JSON value. -/
inductive Value where
  | null
  | bool (b : Bool)
  | number (n : Int)
  | string (s : String)
  | array (items : List Value)
  | object (members : List (String × Value))

/-- The bytes handed to a resolver (`json.RawMessage`). -/
inductive RawMessage where
  /-- Bytes that are not a JSON text; `msg` is the decoder's complaint. -/
  | invalid (msg : String)
  /-- Bytes that denote the value `v`. -/
  | text (v : Value)

/-- The Go types of the struct fields that are modelled. -/
inductive GoType where
  | string | int64 | float64 | bool
  | ptr (elem : GoType)
  deriving DecidableEq, Repr

/-- Values of those types.  A `float64` is identified with the literal that
denotes it. -/
inductive GoValue where
  | string (s : String)
  | int64 (n : Int)
  | float64 (n : Int)
  | bool (b : Bool)
  | nil
  | addr (pointee : GoValue)
  deriving DecidableEq, Repr

/-- One exported field of a struct: the key of its `json` tag, its type, and
whether the tag says `omitempty`. -/
structure StructField where
  name : String
  type : GoType
  omitempty : Bool
  deriving DecidableEq, Repr

/-- A struct value: its fields, by key, in declaration order. -/
abbrev Struct : Type := List (String × GoValue)

/-- The zero value of a type. -/
def zero : GoType → GoValue
  | .string => .string ""
  | .int64 => .int64 0
  | .float64 => .float64 0
  | .bool => .bool false
  | .ptr _ => .nil

/-- The zero value of a struct type, `T{}`. -/
def zeroStruct (fields : List StructField) : Struct :=
  fields.map fun f => (f.name, zero f.type)

/-- How `UnmarshalTypeError.Value` names a JSON value. -/
def kindName : Value → String
  | .null => "null"
  | .bool _ => "bool"
  | .number _ => "number"
  | .string _ => "string"
  | .array _ => "array"
  | .object _ => "object"

/-- Store a JSON value other than `null` into a field of the given type;
`none` when it does not fit.  An `int64` takes the integers of 64 bits. -/
def store : GoType → Value → Option GoValue
  | .string, .string s => some (.string s)
  | .int64, .number n =>
    if -9223372036854775808 ≤ n ∧ n ≤ 9223372036854775807 then some (.int64 n) else none
  | .float64, .number n => some (.float64 n)
  | .bool, .bool b => some (.bool b)
  | .ptr t, v => (store t v).map GoValue.addr
  | _, _ => none

/-- Assign to the field with the given key. -/
def setField (key : String) (v : GoValue) : Struct → Struct
  | [] => []
  | (k, old) :: rest =>
    if k = key then (k, v) :: rest else (k, old) :: setField key v rest

/-- Read the field with the given key. -/
def getField (key : String) : Struct → Option GoValue
  | [] => none
  | (k, v) :: rest => if k = key then some v else getField key rest

/-- The struct field a key of the document is matched with. -/
def findField (fields : List StructField) (key : String) : Option StructField :=
  fields.find? fun f => f.name = key

/-- Decode the members of an object, in order, into the struct `s`; `err` is
the first error met so far. -/
def decodeMembers (fields : List StructField) :
    List (String × Value) → Struct → Option JsonError → Struct × Option JsonError
  | [], s, err => (s, err)
  | (key, v) :: rest, s, err =>
    match findField fields key with
    | none => decodeMembers fields rest s err
    | some f =>
      match v with
      | .null =>
        match f.type with
        | .ptr _ => decodeMembers fields rest (setField key .nil s) err
        | _ => decodeMembers fields rest s err
      | v =>
        match store f.type v with
        | some g => decodeMembers fields rest (setField key g s) err
        | none =>
          decodeMembers fields rest s
            (err.orElse fun _ => some (.UnmarshalTypeError (kindName v) key))

/-- `json.Unmarshal(rawBytes, &T{})` for a struct type with the given fields:
the target afterwards and the error. -/
def Unmarshal (fields : List StructField) : RawMessage → Struct × Option JsonError
  | .invalid msg => (zeroStruct fields, some (.SyntaxError msg))
  | .text (.object members) => decodeMembers fields members (zeroStruct fields) none
  | .text .null => (zeroStruct fields, none)
  | .text v => (zeroStruct fields, some (.UnmarshalTypeError (kindName v) ""))

/-- The probe `struct{X string}` with tag `key`. -/
def probeString (key : String) (rawBytes : RawMessage) : Except JsonError String :=
  match Unmarshal [⟨key, .string, false⟩] rawBytes with
  | (_, some err) => .error err
  | (s, none) =>
    match getField key s with
    | some (.string x) => .ok x
    | _ => .ok ""

/-- The probe `struct{Date int64}` of `unmarshalMaybeInaccessibleMessage`. -/
def probeDate (rawBytes : RawMessage) : Except JsonError Int :=
  match Unmarshal [⟨"date", .int64, false⟩] rawBytes with
  | (_, some err) => .error err
  | (s, none) =>
    match getField "date" s with
    | some (.int64 n) => .ok n
    | _ => .ok 0

/-- A `*string` field of a decoded probe. -/
def getStringPtr (key : String) (s : Struct) : Option String :=
  match getField key s with
  | some (.addr (.string x)) => some x
  | _ => none

/-- A `*float64` field of a decoded probe. -/
def getFloatPtr (key : String) (s : Struct) : Option Int :=
  match getField key s with
  | some (.addr (.float64 x)) => some x
  | _ => none

/-- The probe of `unmarshalInputMessageContent`, fields in declaration order. -/
def probeInputMessageContent (rawBytes : RawMessage) :
    Except JsonError (InputMessageContentProbe Int) :=
  match Unmarshal
      [⟨"message_text", .ptr .string, true⟩, ⟨"latitude", .ptr .float64, true⟩,
       ⟨"address", .ptr .string, true⟩, ⟨"phone_number", .ptr .string, true⟩,
       ⟨"description", .ptr .string, true⟩] rawBytes with
  | (_, some err) => .error err
  | (s, none) =>
    .ok { MessageText := getStringPtr "message_text" s
          Latitude := getFloatPtr "latitude" s
          Address := getStringPtr "address" s
          PhoneNumber := getStringPtr "phone_number" s
          Description := getStringPtr "description" s }

/-! ### The variant structs

The struct declarations of the variants are not among the sources at hand.
Each variant gets the discriminator field its family's probe reads and a few
scalar fields of the object it stands for; nested objects are left out. -/

/-- Modelled from the spec: the declarations of `InaccessibleMessage` and
`Message` are missing; both carry the timestamp `date`, which "is always
structurally present in the wire format". -/
def fieldsMaybeInaccessibleMessage : MaybeInaccessibleMessageVariant → List StructField
  | .InaccessibleMessage => [⟨"message_id", .int64, false⟩, ⟨"date", .int64, false⟩]
  | .Message =>
    [⟨"message_id", .int64, false⟩, ⟨"date", .int64, false⟩, ⟨"text", .string, true⟩]

/-- Modelled from the spec: the declarations of the four message origins are
missing; each carries the tag `type`. -/
def fieldsMessageOrigin : MessageOriginVariant → List StructField
  | .MessageOriginUser => [⟨"type", .string, false⟩, ⟨"date", .int64, false⟩]
  | .MessageOriginHiddenUser =>
    [⟨"type", .string, false⟩, ⟨"date", .int64, false⟩, ⟨"sender_user_name", .string, false⟩]
  | .MessageOriginChat =>
    [⟨"type", .string, false⟩, ⟨"date", .int64, false⟩, ⟨"author_signature", .string, true⟩]
  | .MessageOriginChannel =>
    [⟨"type", .string, false⟩, ⟨"date", .int64, false⟩, ⟨"message_id", .int64, false⟩,
     ⟨"author_signature", .string, true⟩]

/-- Modelled from the spec: the declarations of the six chat members are
missing; each carries the tag `status`. -/
def fieldsChatMember : ChatMemberVariant → List StructField
  | .ChatMemberOwner =>
    [⟨"status", .string, false⟩, ⟨"is_anonymous", .bool, false⟩, ⟨"custom_title", .string, true⟩]
  | .ChatMemberAdministrator =>
    [⟨"status", .string, false⟩, ⟨"can_be_edited", .bool, false⟩, ⟨"is_anonymous", .bool, false⟩]
  | .ChatMemberMember => [⟨"status", .string, false⟩]
  | .ChatMemberRestricted =>
    [⟨"status", .string, false⟩, ⟨"is_member", .bool, false⟩, ⟨"until_date", .int64, false⟩]
  | .ChatMemberLeft => [⟨"status", .string, false⟩]
  | .ChatMemberBanned => [⟨"status", .string, false⟩, ⟨"until_date", .int64, false⟩]

/-- Modelled from the spec: the declarations of the two reaction types are
missing; each carries the tag `type`. -/
def fieldsReactionType : ReactionTypeVariant → List StructField
  | .ReactionTypeEmoji => [⟨"type", .string, false⟩, ⟨"emoji", .string, false⟩]
  | .ReactionTypeCustomEmoji => [⟨"type", .string, false⟩, ⟨"custom_emoji_id", .string, false⟩]

/-- Modelled from the spec: the declarations of the three menu buttons are
missing; each carries the tag `type`. -/
def fieldsMenuButton : MenuButtonVariant → List StructField
  | .MenuButtonCommands => [⟨"type", .string, false⟩]
  | .MenuButtonWebApp => [⟨"type", .string, false⟩, ⟨"text", .string, false⟩]
  | .MenuButtonDefault => [⟨"type", .string, false⟩]

/-- Modelled from the spec: the declarations of the three boost sources are
missing; each carries the tag `source`. -/
def fieldsChatBoostSource : ChatBoostSourceVariant → List StructField
  | .ChatBoostSourcePremium => [⟨"source", .string, false⟩]
  | .ChatBoostSourceGiftCode => [⟨"source", .string, false⟩]
  | .ChatBoostSourceGiveaway =>
    [⟨"source", .string, false⟩, ⟨"giveaway_message_id", .int64, false⟩,
     ⟨"is_unclaimed", .bool, true⟩]

/-- Modelled from the spec: the declarations of the five inline contents are
missing; "a venue payload also carries latitude". -/
def fieldsInputMessageContent : InputMessageContentVariant → List StructField
  | .InputTextMessageContent =>
    [⟨"message_text", .string, false⟩, ⟨"parse_mode", .string, true⟩]
  | .InputVenueMessageContent =>
    [⟨"latitude", .float64, false⟩, ⟨"longitude", .float64, false⟩, ⟨"title", .string, false⟩,
     ⟨"address", .string, false⟩, ⟨"foursquare_id", .string, true⟩]
  | .InputLocationMessageContent =>
    [⟨"latitude", .float64, false⟩, ⟨"longitude", .float64, false⟩,
     ⟨"live_period", .int64, true⟩]
  | .InputContactMessageContent =>
    [⟨"phone_number", .string, false⟩, ⟨"first_name", .string, false⟩,
     ⟨"last_name", .string, true⟩]
  | .InputInvoiceMessageContent =>
    [⟨"title", .string, false⟩, ⟨"description", .string, false⟩, ⟨"payload", .string, false⟩,
     ⟨"currency", .string, false⟩]

/-- The decoder of a family: its probe, and the full decode of each variant
by the variant's fields.  The structs modelled have no decoder of their own,
so every error of the full decode is one of `encoding/json`. -/
def unmarshaler {P K : Type} (probe : RawMessage → Except JsonError P)
    (fields : K → List StructField) : Unmarshaler RawMessage P K (fun _ => Struct) where
  probe := probe
  decode k rawBytes :=
    ((Unmarshal (fields k) rawBytes).1, (Unmarshal (fields k) rawBytes).2.map Error.json)

/-- The decoder behind `unmarshalMaybeInaccessibleMessage`. -/
def maybeInaccessibleMessage :
    Unmarshaler RawMessage Int MaybeInaccessibleMessageVariant (fun _ => Struct) :=
  unmarshaler probeDate fieldsMaybeInaccessibleMessage

/-- The decoder behind `unmarshalMessageOrigin`. -/
def messageOrigin : Unmarshaler RawMessage String MessageOriginVariant (fun _ => Struct) :=
  unmarshaler (probeString "type") fieldsMessageOrigin

/-- The decoder behind `unmarshalChatMember`. -/
def chatMember : Unmarshaler RawMessage String ChatMemberVariant (fun _ => Struct) :=
  unmarshaler (probeString "status") fieldsChatMember

/-- The decoder behind `unmarshalReactionType`. -/
def reactionType : Unmarshaler RawMessage String ReactionTypeVariant (fun _ => Struct) :=
  unmarshaler (probeString "type") fieldsReactionType

/-- The decoder behind `unmarshalMenuButton`. -/
def menuButton : Unmarshaler RawMessage String MenuButtonVariant (fun _ => Struct) :=
  unmarshaler (probeString "type") fieldsMenuButton

/-- The decoder behind `unmarshalChatBoostSource`. -/
def chatBoostSource : Unmarshaler RawMessage String ChatBoostSourceVariant (fun _ => Struct) :=
  unmarshaler (probeString "source") fieldsChatBoostSource

/-- The decoder behind `unmarshalInputMessageContent`. -/
def inputMessageContent :
    Unmarshaler RawMessage (InputMessageContentProbe Int) InputMessageContentVariant
      (fun _ => Struct) :=
  unmarshaler probeInputMessageContent fieldsInputMessageContent

/-- The document `{k₁: v₁, …}`. -/
def document (members : List (String × Value)) : RawMessage := .text (.object members)

end Json

/-! ## The literal-to-variant tables of the tag-match families

These follow the words of the specification; the theorems below compare the
`switch` of each resolver with its table. -/

/-- Tags of the message origins. -/
def messageOriginTable : List (String × MessageOriginVariant) :=
  [("user", .MessageOriginUser), ("hidden_user", .MessageOriginHiddenUser),
   ("chat", .MessageOriginChat), ("channel", .MessageOriginChannel)]

/-- Tags of the chat members. -/
def chatMemberTable : List (String × ChatMemberVariant) :=
  [("creator", .ChatMemberOwner), ("administrator", .ChatMemberAdministrator),
   ("member", .ChatMemberMember), ("restricted", .ChatMemberRestricted),
   ("left", .ChatMemberLeft), ("kicked", .ChatMemberBanned)]

/-- Tags of the reaction types. -/
def reactionTypeTable : List (String × ReactionTypeVariant) :=
  [("emoji", .ReactionTypeEmoji), ("custom_emoji", .ReactionTypeCustomEmoji)]

/-- Tags of the menu buttons. -/
def menuButtonTable : List (String × MenuButtonVariant) :=
  [("commands", .MenuButtonCommands), ("web_app", .MenuButtonWebApp),
   ("default", .MenuButtonDefault)]

/-- Tags of the chat boost sources. -/
def chatBoostSourceTable : List (String × ChatBoostSourceVariant) :=
  [("premium", .ChatBoostSourcePremium), ("gift_code", .ChatBoostSourceGiftCode),
   ("giveaway", .ChatBoostSourceGiveaway)]

/-- The literals a table lists. -/
def literals {K : Type} (table : List (String × K)) : List String := table.map Prod.fst

/-- The variant of a resolver's result: the dynamic type of `data`, if any. -/
def variantOf {K : Type} {T : K → Type} (r : Resolved K T) : Option K := r.1.map Sigma.fst

/-- The presence rules of the inline contents, in the priority order of the
specification: text, address, latitude, phone number, description.  Each rule
pairs "the field is set" with the variant it stands for. -/
def inputMessageContentRules {Float64 : Type} (temp : InputMessageContentProbe Float64) :
    List (Bool × InputMessageContentVariant) :=
  [(temp.MessageText.isSome, .InputTextMessageContent),
   (temp.Address.isSome, .InputVenueMessageContent),
   (temp.Latitude.isSome, .InputLocationMessageContent),
   (temp.PhoneNumber.isSome, .InputContactMessageContent),
   (temp.Description.isSome, .InputInvoiceMessageContent)]

/-- The variant of the first rule whose field is set. -/
def firstSet {K : Type} : List (Bool × K) → Option K
  | [] => none
  | (isSet, k) :: rest => if isSet then some k else firstSet rest

/-- The zero-timestamp rule of the specification: a date of zero is an
inaccessible message, any other date a message. -/
def variantOfDate (date : Int) : MaybeInaccessibleMessageVariant :=
  if date = 0 then .InaccessibleMessage else .Message

/-! ## The method generator (`internal/codegen/method.go`) -/

namespace Codegen

/-- Modelled from the spec: the declaration of `Field` is missing; a schema
field has a name, a type descriptor and is required or optional. -/
structure Field where
  Name : String
  Type_ : String
  Required : Bool
  deriving DecidableEq, Repr

/-- Modelled from the spec: the declaration of `Group` is missing; a schema
group has a name, a free-text description and an ordered list of fields. -/
structure Group where
  Name : String
  Description : String
  Fields : List Field
  deriving DecidableEq, Repr

/-- The functions of the package that `method.go` calls and that are defined
elsewhere: the generator is written over any choice of them. -/
structure Helpers where
  upperFirstLetter : String → String
  snakeToPascal : String → String
  typeOf : String → String → String
  extractReturnType : String → List String
  GenerateType : Group → String

/-- `generateHasUploadable`: the text of the predicate and whether one was
generated.  The loop appends one term per field of type `InputFile`; the
slice stays `nil` exactly when nothing was appended. -/
def generateHasUploadable (H : Helpers) (name : String) (fields : List Field) : String × Bool :=
  let inputFileFields : List String := fields.filterMap fun f =>
    if H.typeOf f.Name f.Type_ = "InputFile" then
      some ("d." ++ H.snakeToPascal f.Name ++ ".NeedsUpload()")
    else none
  let generated : Bool := !inputFileFields.isEmpty
  let text : String :=
    if generated then
      "func (d " ++ name ++ ") HasUploadable() bool \x7b\nreturn "
        ++ " || ".intercalate inputFileFields ++ "\n\x7d"
    else ""
  (text, generated)

/-- `generateMethod`: the text of the method stub. -/
def generateMethod (H : Helpers) (name : String) (hasParams : Bool) (g : Group) : String :=
  let params : String := if hasParams then "params " ++ name ++ "Params" else ""
  let paramsParam : String := if hasParams then "params" else "nil"
  let returnType : String :=
    match H.extractReturnType g.Description with
    | [t] => H.typeOf g.Name t
    | _ => "json.RawMessage"
  "// " ++ name ++ " " ++ g.Description ++ "\nfunc (c *API) " ++ name ++ "(" ++ params
    ++ ") (data " ++ returnType ++ ",err error) \x7b\n\treturn doHTTP[" ++ returnType
    ++ "](c.client, c.url, \"" ++ g.Name ++ "\", " ++ paramsParam ++ ")\n\x7d"

/-- `GenerateMethod`: the artifacts of one group, in the order appended. -/
def GenerateMethod (H : Helpers) (g : Group) : List String :=
  let name := H.upperFirstLetter g.Name
  let hasParams : Bool := g.Fields.length != 0
  let codes : List String := []
  let codes : List String :=
    if hasParams then
      let paramsName := name ++ "Params"
      let codes := codes ++ [H.GenerateType
        { Name := paramsName
          Description := "contains the method's parameters"
          Fields := g.Fields }]
      let r := generateHasUploadable H paramsName g.Fields
      if r.2 then codes ++ [r.1] else codes
    else codes
  codes ++ [generateMethod H name hasParams g]

/-- A sample choice of the helpers, to run the generator on examples: names
are kept as they are, a type descriptor is its own type name, a description
declares no return type, and a record is rendered as its name. -/
def sampleHelpers : Helpers where
  upperFirstLetter := fun s => s
  snakeToPascal := fun s => s
  typeOf := fun _ t => t
  extractReturnType := fun _ => []
  GenerateType := fun g => "type " ++ g.Name

/-- A group without fields. -/
def sampleGetMe : Group := { Name := "getMe", Description := "Returns the bot.", Fields := [] }

/-- A group with one plain field. -/
def sampleSendDice : Group :=
  { Name := "sendDice", Description := "Sends a dice.",
    Fields := [{ Name := "chat_id", Type_ := "Integer", Required := true }] }

/-- A group with a plain field and an upload field. -/
def sampleSendPhoto : Group :=
  { Name := "sendPhoto", Description := "Sends a photo.",
    Fields := [{ Name := "chat_id", Type_ := "Integer", Required := true },
               { Name := "photo", Type_ := "InputFile", Required := true }] }

end Codegen

/-! ## Sample payloads -/

namespace Json

/-- The payload `{"type": "bogus", "status": "bogus", "source": "bogus"}`. -/
def bogusPayload : RawMessage :=
  document [("type", .string "bogus"), ("status", .string "bogus"), ("source", .string "bogus")]

/-- The payload `{}`. -/
def emptyPayload : RawMessage := document []

/-- The payload `{"unrelated": 35}`. -/
def unrelatedPayload : RawMessage := document [("unrelated", .number 35)]

/-- The payload `{"type": "user", "date": "x"}`: the tag is fine, the date is
a string where `MessageOriginUser` has an `int64`. -/
def userWithBadDate : RawMessage :=
  document [("type", .string "user"), ("date", .string "x")]

/-- Bytes cut off in the middle of a JSON text. -/
def truncatedPayload : RawMessage := .invalid "unexpected end of JSON input"

/-- The payload `{"latitude": 35, "longitude": 51, "title": "t", "address": "x"}`. -/
def venuePayload : RawMessage :=
  document [("latitude", .number 35), ("longitude", .number 51), ("title", .string "t"),
    ("address", .string "x")]

/-- The payload `{"type": "user", "date": 1700000000}`. -/
def userPayload : RawMessage :=
  document [("type", .string "user"), ("date", .number 1700000000)]

/-- The payload `{"type": "chat", "date": 1700000000}`. -/
def chatPayload : RawMessage :=
  document [("type", .string "chat"), ("date", .number 1700000000)]

/-- The payload `{"status": "kicked", "until_date": 0}`. -/
def kickedPayload : RawMessage :=
  document [("status", .string "kicked"), ("until_date", .number 0)]

/-- The payload `{"type": "custom_emoji", "custom_emoji_id": "5"}`. -/
def customEmojiPayload : RawMessage :=
  document [("type", .string "custom_emoji"), ("custom_emoji_id", .string "5")]

/-- The payload `{"type": "web_app", "text": "Open"}`. -/
def webAppPayload : RawMessage :=
  document [("type", .string "web_app"), ("text", .string "Open")]

/-- The payload `{"source": "giveaway", "giveaway_message_id": 9}`. -/
def giveawayPayload : RawMessage :=
  document [("source", .string "giveaway"), ("giveaway_message_id", .number 9)]

/-- The payload `{"message_text": "hi", "address": "x", "latitude": 35}`. -/
def textWithAddressPayload : RawMessage :=
  document [("message_text", .string "hi"), ("address", .string "x"), ("latitude", .number 35)]

/-- The payload `{"latitude": 35, "longitude": 51}`. -/
def locationPayload : RawMessage :=
  document [("latitude", .number 35), ("longitude", .number 51)]

/-- The payload `{"phone_number": "1", "first_name": "A", "description": "d"}`. -/
def contactPayload : RawMessage :=
  document [("phone_number", .string "1"), ("first_name", .string "A"),
    ("description", .string "d")]

/-- The payload `{"title": "t", "description": "d", "payload": "p", "currency": "EUR"}`. -/
def invoicePayload : RawMessage :=
  document [("title", .string "t"), ("description", .string "d"), ("payload", .string "p"),
    ("currency", .string "EUR")]

/-- The payload `{"message_id": "x", "date": 5}`: the identifier is a string
where `Message` has an `int64`. -/
def messageWithBadId : RawMessage :=
  document [("message_id", .string "x"), ("date", .number 5)]

/-- The payload `{"status": "kicked", "until_date": "x"}`. -/
def kickedWithBadDate : RawMessage :=
  document [("status", .string "kicked"), ("until_date", .string "x")]

/-- The payload `{"type": "emoji", "emoji": 5}`. -/
def emojiWithBadEmoji : RawMessage :=
  document [("type", .string "emoji"), ("emoji", .number 5)]

/-- The payload `{"type": "web_app", "text": 5}`. -/
def webAppWithBadText : RawMessage :=
  document [("type", .string "web_app"), ("text", .number 5)]

/-- The payload `{"source": "giveaway", "giveaway_message_id": "x"}`. -/
def giveawayWithBadId : RawMessage :=
  document [("source", .string "giveaway"), ("giveaway_message_id", .string "x")]

/-- The payload `{"message_text": "hi", "parse_mode": 5}`. -/
def textWithBadParseMode : RawMessage :=
  document [("message_text", .string "hi"), ("parse_mode", .number 5)]

end Json

/-! ## The text of a method stub -/

namespace Codegen

/-- The format string of `generateMethod` with its eight arguments filled
in: the name twice, the description, the parameter list, the response type
twice (as the declared type of `data` and as the type argument of `doHTTP`),
the wire name and the value passed as parameters. -/
def stubText (name description params returnType wireName paramsParam : String) : String :=
  "// " ++ name ++ " " ++ description ++ "\nfunc (c *API) " ++ name ++ "(" ++ params
    ++ ") (data " ++ returnType ++ ",err error) \x7b\n\treturn doHTTP[" ++ returnType
    ++ "](c.client, c.url, \"" ++ wireName ++ "\", " ++ paramsParam ++ ")\n\x7d"

/-- The terms of an uploadable predicate as the specification describes
them: the fields of type `InputFile`, in schema order, each turned into its
own upload check. -/
def uploadChecks (H : Helpers) (fields : List Field) : List String :=
  (fields.filter fun f => H.typeOf f.Name f.Type_ = "InputFile").map
    fun f => "d." ++ H.snakeToPascal f.Name ++ ".NeedsUpload()"

/-- The sample helpers with a description parser that finds the given
candidates in every description. -/
def sampleHelpersFinding (candidates : List String) : Helpers :=
  { sampleHelpers with extractReturnType := fun _ => candidates }

/-- A group whose one field has an empty type descriptor. -/
def sampleUntyped : Group :=
  { Name := "sendThing", Description := "Sends a thing.",
    Fields := [{ Name := "thing", Type_ := "", Required := true }] }

/-- A group with two upload fields around a plain one. -/
def sampleSendMedia : Group :=
  { Name := "sendMedia", Description := "Sends media.",
    Fields := [{ Name := "photo", Type_ := "InputFile", Required := true },
               { Name := "caption", Type_ := "String", Required := false },
               { Name := "thumbnail", Type_ := "InputFile", Required := false }] }

end Codegen

/-! ## Requests that can be sent (`sendable.go`)

The declarations of the sixteen request structs, of `ReplyParameters`, `API`
and `Bot` are not among the sources.  `sendable.go` names the fields it
touches; everything else a struct holds is kept together in one field. -/

/-- `ParseMode`: a string type. -/
abbrev ParseMode : Type := String

/-- `ParseModeNone`: does not parse the message. -/
def ParseModeNone : ParseMode := ""

/-- `ParseModeMarkdown`. -/
def ParseModeMarkdown : ParseMode := "Markdown"

/-- `ParseModeMarkdownV2`. -/
def ParseModeMarkdownV2 : ParseMode := "MarkdownV2"

/-- `ParseModeHTML`. -/
def ParseModeHTML : ParseMode := "HTML"

/-- A value of the interface `ChatID`: `nil`, a `Username` (a string) or an
`ID` (an `int64`). -/
inductive ChatID where
  | nil
  | Username (name : String)
  | ID (id : Int)
  deriving DecidableEq, Repr

/-- `ReplyParameters`: the two fields `sendable.go` sets, and the others. -/
structure ReplyParameters (O : Type) where
  MessageId : Int
  ChatId : ChatID
  Other : O
  deriving DecidableEq, Repr

/-- A request struct with a `ParseMode` field. -/
structure CaptionedFields (R O : Type) where
  ChatId : ChatID
  ParseMode : ParseMode
  ReplyParameters : Option (ReplyParameters O)
  Rest : R
  deriving DecidableEq, Repr

/-- A request struct without a `ParseMode` field. -/
structure PlainFields (R O : Type) where
  ChatId : ChatID
  ReplyParameters : Option (ReplyParameters O)
  Rest : R
  deriving DecidableEq, Repr

/-- The struct `SendGame`, whose `ChatId` is an `int64`. -/
structure GameFields (R O : Type) where
  ChatId : Int
  ReplyParameters : Option (ReplyParameters O)
  Rest : R
  deriving DecidableEq, Repr

/-- A pointer to one of the sixteen request structs, tagged with its type. -/
inductive Request (R O : Type) where
  | SendAnimation (x : CaptionedFields R O)
  | SendAudio (x : CaptionedFields R O)
  | SendContact (x : PlainFields R O)
  | SendDice (x : PlainFields R O)
  | SendDocument (x : CaptionedFields R O)
  | SendGame (x : GameFields R O)
  | SendInvoice (x : PlainFields R O)
  | SendLocation (x : PlainFields R O)
  | SendMessage (x : CaptionedFields R O)
  | SendPhoto (x : CaptionedFields R O)
  | SendPoll (x : PlainFields R O)
  | SendSticker (x : PlainFields R O)
  | SendVenue (x : PlainFields R O)
  | SendVideo (x : CaptionedFields R O)
  | SendVideoNote (x : PlainFields R O)
  | SendVoice (x : CaptionedFields R O)
  deriving DecidableEq, Repr

section Sendable

variable {R O Msg : Type}

/-- The methods `GetChatID`, one line per type. -/
def GetChatID : Request R O → ChatID
  | .SendAnimation x => x.ChatId
  | .SendAudio x => x.ChatId
  | .SendContact x => x.ChatId
  | .SendDice x => x.ChatId
  | .SendDocument x => x.ChatId
  | .SendGame x => ChatID.ID x.ChatId
  | .SendInvoice x => x.ChatId
  | .SendLocation x => x.ChatId
  | .SendMessage x => x.ChatId
  | .SendPhoto x => x.ChatId
  | .SendPoll x => x.ChatId
  | .SendSticker x => x.ChatId
  | .SendVenue x => x.ChatId
  | .SendVideo x => x.ChatId
  | .SendVideoNote x => x.ChatId
  | .SendVoice x => x.ChatId

/-- The methods `SetChatID`, one line per type. -/
def SetChatID (id : Int) : Request R O → Request R O
  | .SendAnimation x => .SendAnimation { x with ChatId := ChatID.ID id }
  | .SendAudio x => .SendAudio { x with ChatId := ChatID.ID id }
  | .SendContact x => .SendContact { x with ChatId := ChatID.ID id }
  | .SendDice x => .SendDice { x with ChatId := ChatID.ID id }
  | .SendDocument x => .SendDocument { x with ChatId := ChatID.ID id }
  | .SendGame x => .SendGame { x with ChatId := id }
  | .SendInvoice x => .SendInvoice { x with ChatId := ChatID.ID id }
  | .SendLocation x => .SendLocation { x with ChatId := ChatID.ID id }
  | .SendMessage x => .SendMessage { x with ChatId := ChatID.ID id }
  | .SendPhoto x => .SendPhoto { x with ChatId := ChatID.ID id }
  | .SendPoll x => .SendPoll { x with ChatId := ChatID.ID id }
  | .SendSticker x => .SendSticker { x with ChatId := ChatID.ID id }
  | .SendVenue x => .SendVenue { x with ChatId := ChatID.ID id }
  | .SendVideo x => .SendVideo { x with ChatId := ChatID.ID id }
  | .SendVideoNote x => .SendVideoNote { x with ChatId := ChatID.ID id }
  | .SendVoice x => .SendVoice { x with ChatId := ChatID.ID id }

/-- The methods `GetParseMode`, one line per type that has it; `none` for a
type that does not implement `ParseModeSettable`. -/
def GetParseMode : Request R O → Option ParseMode
  | .SendAnimation x => some x.ParseMode
  | .SendAudio x => some x.ParseMode
  | .SendContact _ => none
  | .SendDice _ => none
  | .SendDocument x => some x.ParseMode
  | .SendGame _ => none
  | .SendInvoice _ => none
  | .SendLocation _ => none
  | .SendMessage x => some x.ParseMode
  | .SendPhoto x => some x.ParseMode
  | .SendPoll _ => none
  | .SendSticker _ => none
  | .SendVenue _ => none
  | .SendVideo x => some x.ParseMode
  | .SendVideoNote _ => none
  | .SendVoice x => some x.ParseMode

/-- The methods `SetParseMode`, one line per type that has it; `none` for a
type that does not implement `ParseModeSettable`. -/
def SetParseMode (mode : ParseMode) : Request R O → Option (Request R O)
  | .SendAnimation x => some (.SendAnimation { x with ParseMode := mode })
  | .SendAudio x => some (.SendAudio { x with ParseMode := mode })
  | .SendContact _ => none
  | .SendDice _ => none
  | .SendDocument x => some (.SendDocument { x with ParseMode := mode })
  | .SendGame _ => none
  | .SendInvoice _ => none
  | .SendLocation _ => none
  | .SendMessage x => some (.SendMessage { x with ParseMode := mode })
  | .SendPhoto x => some (.SendPhoto { x with ParseMode := mode })
  | .SendPoll _ => none
  | .SendSticker _ => none
  | .SendVenue _ => none
  | .SendVideo x => some (.SendVideo { x with ParseMode := mode })
  | .SendVideoNote _ => none
  | .SendVoice x => some (.SendVoice { x with ParseMode := mode })

/-- The methods `SetReplyToMessageId`, one per type: the field is pointed at
a new `ReplyParameters` literal, whose unnamed fields are zero. -/
def SetReplyToMessageId [Inhabited O] (id : Int) : Request R O → Request R O
  | .SendAnimation x => .SendAnimation { x with ReplyParameters := some { MessageId := id, ChatId := GetChatID (.SendAnimation x), Other := default } }
  | .SendAudio x => .SendAudio { x with ReplyParameters := some { MessageId := id, ChatId := GetChatID (.SendAudio x), Other := default } }
  | .SendContact x => .SendContact { x with ReplyParameters := some { MessageId := id, ChatId := GetChatID (.SendContact x), Other := default } }
  | .SendDice x => .SendDice { x with ReplyParameters := some { MessageId := id, ChatId := GetChatID (.SendDice x), Other := default } }
  | .SendDocument x => .SendDocument { x with ReplyParameters := some { MessageId := id, ChatId := GetChatID (.SendDocument x), Other := default } }
  | .SendGame x => .SendGame { x with ReplyParameters := some { MessageId := id, ChatId := GetChatID (.SendGame x), Other := default } }
  | .SendInvoice x => .SendInvoice { x with ReplyParameters := some { MessageId := id, ChatId := GetChatID (.SendInvoice x), Other := default } }
  | .SendLocation x => .SendLocation { x with ReplyParameters := some { MessageId := id, ChatId := GetChatID (.SendLocation x), Other := default } }
  | .SendMessage x => .SendMessage { x with ReplyParameters := some { MessageId := id, ChatId := GetChatID (.SendMessage x), Other := default } }
  | .SendPhoto x => .SendPhoto { x with ReplyParameters := some { MessageId := id, ChatId := GetChatID (.SendPhoto x), Other := default } }
  | .SendPoll x => .SendPoll { x with ReplyParameters := some { MessageId := id, ChatId := GetChatID (.SendPoll x), Other := default } }
  | .SendSticker x => .SendSticker { x with ReplyParameters := some { MessageId := id, ChatId := GetChatID (.SendSticker x), Other := default } }
  | .SendVenue x => .SendVenue { x with ReplyParameters := some { MessageId := id, ChatId := GetChatID (.SendVenue x), Other := default } }
  | .SendVideo x => .SendVideo { x with ReplyParameters := some { MessageId := id, ChatId := GetChatID (.SendVideo x), Other := default } }
  | .SendVideoNote x => .SendVideoNote { x with ReplyParameters := some { MessageId := id, ChatId := GetChatID (.SendVideoNote x), Other := default } }
  | .SendVoice x => .SendVoice { x with ReplyParameters := some { MessageId := id, ChatId := GetChatID (.SendVoice x), Other := default } }

/-- The name of the struct a request points to. -/
def typeName : Request R O → String
  | .SendAnimation _ => "SendAnimation"
  | .SendAudio _ => "SendAudio"
  | .SendContact _ => "SendContact"
  | .SendDice _ => "SendDice"
  | .SendDocument _ => "SendDocument"
  | .SendGame _ => "SendGame"
  | .SendInvoice _ => "SendInvoice"
  | .SendLocation _ => "SendLocation"
  | .SendMessage _ => "SendMessage"
  | .SendPhoto _ => "SendPhoto"
  | .SendPoll _ => "SendPoll"
  | .SendSticker _ => "SendSticker"
  | .SendVenue _ => "SendVenue"
  | .SendVideo _ => "SendVideo"
  | .SendVideoNote _ => "SendVideoNote"
  | .SendVoice _ => "SendVoice"

/-- The field `ReplyParameters` of a request. -/
def replyParametersOf : Request R O → Option (ReplyParameters O)
  | .SendAnimation x => x.ReplyParameters
  | .SendAudio x => x.ReplyParameters
  | .SendContact x => x.ReplyParameters
  | .SendDice x => x.ReplyParameters
  | .SendDocument x => x.ReplyParameters
  | .SendGame x => x.ReplyParameters
  | .SendInvoice x => x.ReplyParameters
  | .SendLocation x => x.ReplyParameters
  | .SendMessage x => x.ReplyParameters
  | .SendPhoto x => x.ReplyParameters
  | .SendPoll x => x.ReplyParameters
  | .SendSticker x => x.ReplyParameters
  | .SendVenue x => x.ReplyParameters
  | .SendVideo x => x.ReplyParameters
  | .SendVideoNote x => x.ReplyParameters
  | .SendVoice x => x.ReplyParameters

/-- The fields of a request that `sendable.go` does not name. -/
def restOf : Request R O → R
  | .SendAnimation x => x.Rest
  | .SendAudio x => x.Rest
  | .SendContact x => x.Rest
  | .SendDice x => x.Rest
  | .SendDocument x => x.Rest
  | .SendGame x => x.Rest
  | .SendInvoice x => x.Rest
  | .SendLocation x => x.Rest
  | .SendMessage x => x.Rest
  | .SendPhoto x => x.Rest
  | .SendPoll x => x.Rest
  | .SendSticker x => x.Rest
  | .SendVenue x => x.Rest
  | .SendVideo x => x.Rest
  | .SendVideoNote x => x.Rest
  | .SendVoice x => x.Rest

/-- The client: `call` is the method `api.SendX(x)` of the request's own
type, which returns a message and an error. -/
structure API (R O Msg : Type) where
  call : Request R O → Option Msg × Option Error

/-- What a `Send` method does: the calls it makes on the client, in order,
and the pair it returns; `none` for the `Send` of `SendGame`, which returns
nothing. -/
structure Sent (R O Msg : Type) where
  calls : List (Request R O)
  result : Option (Option Msg × Option Error)

/-- The methods `Send`, one line per type. -/
def Send (api : API R O Msg) : Request R O → Sent R O Msg
  | .SendAnimation x => ⟨[.SendAnimation x], some (api.call (.SendAnimation x))⟩
  | .SendAudio x => ⟨[.SendAudio x], some (api.call (.SendAudio x))⟩
  | .SendContact x => ⟨[.SendContact x], some (api.call (.SendContact x))⟩
  | .SendDice x => ⟨[.SendDice x], some (api.call (.SendDice x))⟩
  | .SendDocument x => ⟨[.SendDocument x], some (api.call (.SendDocument x))⟩
  | .SendGame x => ⟨[.SendGame x], none⟩
  | .SendInvoice x => ⟨[.SendInvoice x], some (api.call (.SendInvoice x))⟩
  | .SendLocation x => ⟨[.SendLocation x], some (api.call (.SendLocation x))⟩
  | .SendMessage x => ⟨[.SendMessage x], some (api.call (.SendMessage x))⟩
  | .SendPhoto x => ⟨[.SendPhoto x], some (api.call (.SendPhoto x))⟩
  | .SendPoll x => ⟨[.SendPoll x], some (api.call (.SendPoll x))⟩
  | .SendSticker x => ⟨[.SendSticker x], some (api.call (.SendSticker x))⟩
  | .SendVenue x => ⟨[.SendVenue x], some (api.call (.SendVenue x))⟩
  | .SendVideo x => ⟨[.SendVideo x], some (api.call (.SendVideo x))⟩
  | .SendVideoNote x => ⟨[.SendVideoNote x], some (api.call (.SendVideoNote x))⟩
  | .SendVoice x => ⟨[.SendVoice x], some (api.call (.SendVoice x))⟩

/-- Whether the type implements `Sendable`: its `Send` returns a message and
an error.  `SendGame` does not. -/
def isSendable : Request R O → Bool
  | .SendAnimation _ => true
  | .SendAudio _ => true
  | .SendContact _ => true
  | .SendDice _ => true
  | .SendDocument _ => true
  | .SendGame _ => false
  | .SendInvoice _ => true
  | .SendLocation _ => true
  | .SendMessage _ => true
  | .SendPhoto _ => true
  | .SendPoll _ => true
  | .SendSticker _ => true
  | .SendVenue _ => true
  | .SendVideo _ => true
  | .SendVideoNote _ => true
  | .SendVoice _ => true

/-- The two fields of `Bot` that `Bot.Send` reads. -/
structure Bot (R O Msg : Type) where
  API : API R O Msg
  DefaultParseMode : ParseMode

/-- `Bot.Send`: the request as the call leaves it, and what the request's own
`Send` did.  The type assertion `msg.(ParseModeSettable)` succeeds exactly
for the types that have both methods. -/
def Bot.Send (b : Bot R O Msg) (msg : Request R O) : Request R O × Sent R O Msg :=
  let msg : Request R O :=
    match GetParseMode msg, SetParseMode b.DefaultParseMode msg with
    | some mode, some updated => if mode = ParseModeNone then updated else msg
    | _, _ => msg
  (msg, Tgo.Send b.API msg)

end Sendable

/-- A client that answers every request with the message `7` and no error. -/
def sampleAPI : API Unit Unit Nat where
  call := fun _ => (some 7, none)

/-- A bot whose default parse mode is HTML. -/
def sampleBot : Bot Unit Unit Nat := { API := sampleAPI, DefaultParseMode := ParseModeHTML }

/-- A `SendMessage` without a parse mode. -/
def sampleSendMessage : Request Unit Unit :=
  .SendMessage { ChatId := .ID 5, ParseMode := ParseModeNone, ReplyParameters := none, Rest := () }

/-- A `SendPhoto` whose parse mode is Markdown. -/
def sampleSendPhotoRequest : Request Unit Unit :=
  .SendPhoto
    { ChatId := .Username "@chan", ParseMode := ParseModeMarkdown, ReplyParameters := none,
      Rest := () }

/-- A `SendDice`, which has no parse mode. -/
def sampleSendDiceRequest : Request Unit Unit :=
  .SendDice { ChatId := .ID 5, ReplyParameters := none, Rest := () }

/-! ## Chat identifiers from bytes (`sendable.go`) -/

/-- The two uses `unmarshalChatID` makes of `json.Unmarshal`: into a fresh
`Username` and into a fresh `ID`.  Each gives the target afterwards and the
error. -/
structure ScalarUnmarshaler where
  intoUsername : List UInt8 → String × Option Error
  intoID : List UInt8 → Int × Option Error

/-- `unmarshalChatID`.  `bytes.HasPrefix(data, []byte("\""))` asks whether
the one-byte slice `"` (byte 34) starts `data`. -/
def unmarshalChatID (U : ScalarUnmarshaler) (data : List UInt8) : ChatID × Option Error :=
  if List.isPrefixOf [34] data then
    (ChatID.Username (U.intoUsername data).1, (U.intoUsername data).2)
  else
    (ChatID.ID (U.intoID data).1, (U.intoID data).2)

namespace Json

/-! ### Scalars from bytes

A reader for the JSON texts that are one scalar: `null`, an integer literal,
or a string of printable ASCII without escapes, with white space around it.
Other bytes are reported as not being a JSON text. -/

/-- JSON white space: space, tab, line feed, carriage return. -/
def isSpace (b : UInt8) : Bool := b == 32 || b == 9 || b == 10 || b == 13

/-- Drop leading white space. -/
def skipSpace : List UInt8 → List UInt8
  | [] => []
  | b :: rest => if isSpace b then skipSpace rest else b :: rest

/-- After an opening quote: the bytes up to the closing quote and the bytes
after it. -/
def scanString : List UInt8 → Option (List UInt8 × List UInt8)
  | [] => none
  | b :: rest =>
    if b == 34 then some ([], rest)
    else if b == 92 || b < 32 || b ≥ 127 then none
    else (scanString rest).map fun p => (b :: p.1, p.2)

/-- The decimal digits at the front, as a number added to `acc`, and the
bytes after them. -/
def scanDigits : List UInt8 → Nat → Nat × List UInt8
  | [], acc => (acc, [])
  | b :: rest, acc =>
    if 48 ≤ b ∧ b ≤ 57 then scanDigits rest (acc * 10 + (b.toNat - 48)) else (acc, b :: rest)

/-- An unsigned integer literal at the front: at least one digit, no leading
zero before another digit. -/
def scanNatural (data : List UInt8) : Option (Nat × List UInt8) :=
  match data with
  | [] => none
  | b :: rest =>
    if b == 48 then
      match rest with
      | c :: _ => if 48 ≤ c ∧ c ≤ 57 then none else some (0, rest)
      | [] => some (0, rest)
    else if 49 ≤ b ∧ b ≤ 57 then some (scanDigits (b :: rest) 0)
    else none

/-- The text of ASCII bytes. -/
def asciiString (bytes : List UInt8) : String :=
  String.mk (bytes.map fun b => Char.ofNat b.toNat)

/-- The bytes of an ASCII text. -/
def asciiBytes (text : String) : List UInt8 :=
  text.data.map fun c => c.toNat.toUInt8

/-- A value followed by nothing but white space. -/
def closeValue (v : Value) (after : List UInt8) : RawMessage :=
  if skipSpace after = [] then .text v
  else .invalid "invalid character after top-level value"

/-- Read the bytes as one scalar. -/
def readScalar (data : List UInt8) : RawMessage :=
  match skipSpace data with
  | [] => .invalid "unexpected end of JSON input"
  | 34 :: rest =>
    match scanString rest with
    | some (content, after) => closeValue (.string (asciiString content)) after
    | none => .invalid "invalid string"
  | 110 :: 117 :: 108 :: 108 :: after => closeValue .null after
  | 45 :: rest =>
    match scanNatural rest with
    | some (n, after) => closeValue (.number (-(n : Int))) after
    | none => .invalid "invalid character in numeric literal"
  | rest =>
    match scanNatural rest with
    | some (n, after) => closeValue (.number (n : Int)) after
    | none => .invalid "invalid character looking for beginning of value"

/-- `json.Unmarshal` of a scalar into a fresh `Username`. -/
def intoUsername (data : List UInt8) : String × Option Error :=
  match readScalar data with
  | .invalid msg => ("", some (Error.json (.SyntaxError msg)))
  | .text .null => ("", none)
  | .text v =>
    match store .string v with
    | some (.string s) => (s, none)
    | _ => ("", some (Error.json (.UnmarshalTypeError (kindName v) "")))

/-- `json.Unmarshal` of a scalar into a fresh `ID`. -/
def intoID (data : List UInt8) : Int × Option Error :=
  match readScalar data with
  | .invalid msg => (0, some (Error.json (.SyntaxError msg)))
  | .text .null => (0, none)
  | .text v =>
    match store .int64 v with
    | some (.int64 n) => (n, none)
    | _ => (0, some (Error.json (.UnmarshalTypeError (kindName v) "")))

/-- The scalar decoder behind `unmarshalChatID`. -/
def scalars : ScalarUnmarshaler where
  intoUsername := intoUsername
  intoID := intoID

end Json

/-! ## Instances of the variant structs -/

namespace Json

end Json

/-! ## Each tag-match resolver against its table -/

section TagMatch

variable {Raw : Type}

/-- A literal a table does not list is not found in it. -/
theorem lookup_of_not_listed {K : Type} (table : List (String × K)) (tag : String)
    (h : tag ∉ literals table) : table.lookup tag = none := by
  induction table with
  | nil => rfl
  | cons p rest ih =>
    obtain ⟨a, k⟩ := p
    simp only [literals, List.map_cons, List.mem_cons, not_or] at h
    have hne : (tag == a) = false := by simpa using h.1
    simp only [List.lookup, hne]
    exact ih h.2

theorem unmarshalMessageOrigin_of_probe {T : MessageOriginVariant → Type}
    (J : Unmarshaler Raw String MessageOriginVariant T) (rawBytes : Raw) (tag : String)
    (h : J.probe rawBytes = .ok tag) :
    unmarshalMessageOrigin J rawBytes =
      match messageOriginTable.lookup tag with
      | some k => decodeInto J k rawBytes
      | none => (none, some (Error.errorsNew "unknown type")) := by
  simp only [unmarshalMessageOrigin, h]
  split_ifs
  all_goals first
    | (simp_all [List.lookup, messageOriginTable]; done)
    | (rw [lookup_of_not_listed _ _ (by simp [literals, messageOriginTable, *])])

theorem unmarshalChatMember_of_probe {T : ChatMemberVariant → Type}
    (J : Unmarshaler Raw String ChatMemberVariant T) (rawBytes : Raw) (tag : String)
    (h : J.probe rawBytes = .ok tag) :
    unmarshalChatMember J rawBytes =
      match chatMemberTable.lookup tag with
      | some k => decodeInto J k rawBytes
      | none => (none, some (Error.errorsNew "unknown type")) := by
  simp only [unmarshalChatMember, h]
  split_ifs
  all_goals first
    | (simp_all [List.lookup, chatMemberTable]; done)
    | (rw [lookup_of_not_listed _ _ (by simp [literals, chatMemberTable, *])])

theorem unmarshalReactionType_of_probe {T : ReactionTypeVariant → Type}
    (J : Unmarshaler Raw String ReactionTypeVariant T) (rawBytes : Raw) (tag : String)
    (h : J.probe rawBytes = .ok tag) :
    unmarshalReactionType J rawBytes =
      match reactionTypeTable.lookup tag with
      | some k => decodeInto J k rawBytes
      | none => (none, some (Error.errorsNew "unknown type")) := by
  simp only [unmarshalReactionType, h]
  split_ifs
  all_goals first
    | (simp_all [List.lookup, reactionTypeTable]; done)
    | (rw [lookup_of_not_listed _ _ (by simp [literals, reactionTypeTable, *])])

theorem unmarshalMenuButton_of_probe {T : MenuButtonVariant → Type}
    (J : Unmarshaler Raw String MenuButtonVariant T) (rawBytes : Raw) (tag : String)
    (h : J.probe rawBytes = .ok tag) :
    unmarshalMenuButton J rawBytes =
      match menuButtonTable.lookup tag with
      | some k => decodeInto J k rawBytes
      | none => (none, some (Error.errorsNew "unknown type")) := by
  simp only [unmarshalMenuButton, h]
  split_ifs
  all_goals first
    | (simp_all [List.lookup, menuButtonTable]; done)
    | (rw [lookup_of_not_listed _ _ (by simp [literals, menuButtonTable, *])])

theorem unmarshalChatBoostSource_of_probe {T : ChatBoostSourceVariant → Type}
    (J : Unmarshaler Raw String ChatBoostSourceVariant T) (rawBytes : Raw) (tag : String)
    (h : J.probe rawBytes = .ok tag) :
    unmarshalChatBoostSource J rawBytes =
      match chatBoostSourceTable.lookup tag with
      | some k => decodeInto J k rawBytes
      | none => (none, some (Error.errorsNew "unknown type")) := by
  simp only [unmarshalChatBoostSource, h]
  split_ifs
  all_goals first
    | (simp_all [List.lookup, chatBoostSourceTable]; done)
    | (rw [lookup_of_not_listed _ _ (by simp [literals, chatBoostSourceTable, *])])

end TagMatch

/-! ## The two other resolvers against their rules -/

section OtherRules

variable {Raw : Type}

theorem unmarshalMaybeInaccessibleMessage_of_probe {T : MaybeInaccessibleMessageVariant → Type}
    (J : Unmarshaler Raw Int MaybeInaccessibleMessageVariant T) (rawBytes : Raw) (date : Int)
    (h : J.probe rawBytes = .ok date) :
    unmarshalMaybeInaccessibleMessage J rawBytes = decodeInto J (variantOfDate date) rawBytes := by
  simp only [unmarshalMaybeInaccessibleMessage, h, variantOfDate]
  split_ifs <;> rfl

theorem unmarshalInputMessageContent_of_probe {Float64 : Type}
    {T : InputMessageContentVariant → Type}
    (J : Unmarshaler Raw (InputMessageContentProbe Float64) InputMessageContentVariant T)
    (rawBytes : Raw) (temp : InputMessageContentProbe Float64)
    (h : J.probe rawBytes = .ok temp) :
    unmarshalInputMessageContent J rawBytes =
      match firstSet (inputMessageContentRules temp) with
      | some k => decodeInto J k rawBytes
      | none => (none, some (Error.errorsNew "unknown type")) := by
  simp only [unmarshalInputMessageContent, h, inputMessageContentRules, firstSet]
  split_ifs <;> rfl

end OtherRules

/-! ## Selection as a function of the tag -/

section Selection

variable {Raw : Type}

/-- What a table finds is one of its entries. -/
theorem mem_of_lookup {K : Type} (table : List (String × K)) (tag : String) (k : K)
    (h : table.lookup tag = some k) : (tag, k) ∈ table := by
  induction table with
  | nil => simp [List.lookup] at h
  | cons p rest ih =>
    obtain ⟨a, v⟩ := p
    by_cases hta : tag = a
    · subst hta
      simp only [List.lookup, beq_self_eq_true, Option.some.injEq] at h
      subst h
      exact List.mem_cons_self _ _
    · have hne : (tag == a) = false := by simpa using hta
      simp only [List.lookup, hne] at h
      exact List.mem_cons_of_mem _ (ih h)

/-- In a table without repeated literals, an entry is what the table finds. -/
theorem lookup_of_mem {K : Type} (table : List (String × K)) (tag : String) (k : K)
    (hnd : (literals table).Nodup) (h : (tag, k) ∈ table) : table.lookup tag = some k := by
  induction table with
  | nil => simp at h
  | cons p rest ih =>
    obtain ⟨a, v⟩ := p
    simp only [literals, List.map_cons, List.nodup_cons] at hnd
    rcases List.mem_cons.mp h with heq | hmem
    · simp only [Prod.mk.injEq] at heq
      obtain ⟨rfl, rfl⟩ := heq
      simp [List.lookup]
    · have hta : tag ≠ a := by
        rintro rfl
        exact hnd.1 (List.mem_map.mpr ⟨(tag, k), hmem, rfl⟩)
      have hne : (tag == a) = false := by simpa using hta
      simp only [List.lookup, hne]
      exact ih hnd.2 hmem

/-- A listed literal is found. -/
theorem lookup_of_listed {K : Type} (table : List (String × K)) (tag : String)
    (h : tag ∈ literals table) : ∃ k, table.lookup tag = some k := by
  induction table with
  | nil => simp [literals] at h
  | cons p rest ih =>
    obtain ⟨a, v⟩ := p
    by_cases hta : tag = a
    · subst hta
      exact ⟨v, by simp [List.lookup]⟩
    · have hne : (tag == a) = false := by simpa using hta
      simp only [literals, List.map_cons, List.mem_cons, hta, false_or] at h
      obtain ⟨k, hk⟩ := ih h
      exact ⟨k, by simp only [List.lookup, hne]; exact hk⟩

/-- In a table without repeated variants, a variant has one literal. -/
theorem literal_of_variant {K : Type} (table : List (String × K)) (a b : String) (k : K)
    (hnd : (table.map Prod.snd).Nodup) (ha : (a, k) ∈ table) (hb : (b, k) ∈ table) :
    a = b := by
  induction table with
  | nil => simp at ha
  | cons p rest ih =>
    obtain ⟨c, v⟩ := p
    simp only [List.map_cons, List.nodup_cons] at hnd
    rcases List.mem_cons.mp ha with ha1 | ha1 <;> rcases List.mem_cons.mp hb with hb1 | hb1
    · simp only [Prod.mk.injEq] at ha1 hb1
      rw [ha1.1, hb1.1]
    · simp only [Prod.mk.injEq] at ha1
      have hk : k ∈ rest.map Prod.snd := List.mem_map.mpr ⟨(b, k), hb1, rfl⟩
      exact absurd (ha1.2 ▸ hk) hnd.1
    · simp only [Prod.mk.injEq] at hb1
      have hk : k ∈ rest.map Prod.snd := List.mem_map.mpr ⟨(a, k), ha1, rfl⟩
      exact absurd (hb1.2 ▸ hk) hnd.1
    · exact ih hnd.2 ha1 hb1

/-- In a table that repeats neither a literal nor a variant, two listed
literals find the same variant exactly when they are the same literal. -/
theorem lookup_eq_iff {K : Type} (table : List (String × K)) (a b : String)
    (hv : (table.map Prod.snd).Nodup) (ha : a ∈ literals table) :
    table.lookup a = table.lookup b ↔ a = b := by
  constructor
  · intro h
    obtain ⟨k, hk⟩ := lookup_of_listed table a ha
    exact literal_of_variant table a b k hv (mem_of_lookup table a k hk)
      (mem_of_lookup table b k (h ▸ hk))
  · rintro rfl
    rfl

theorem messageOriginTable_literals_nodup : (literals messageOriginTable).Nodup := by decide

theorem messageOriginTable_variants_nodup : (messageOriginTable.map Prod.snd).Nodup := by decide

theorem chatMemberTable_literals_nodup : (literals chatMemberTable).Nodup := by decide

theorem chatMemberTable_variants_nodup : (chatMemberTable.map Prod.snd).Nodup := by decide

theorem reactionTypeTable_literals_nodup : (literals reactionTypeTable).Nodup := by decide

theorem reactionTypeTable_variants_nodup : (reactionTypeTable.map Prod.snd).Nodup := by decide

theorem menuButtonTable_literals_nodup : (literals menuButtonTable).Nodup := by decide

theorem menuButtonTable_variants_nodup : (menuButtonTable.map Prod.snd).Nodup := by decide

theorem chatBoostSourceTable_literals_nodup : (literals chatBoostSourceTable).Nodup := by decide

theorem chatBoostSourceTable_variants_nodup : (chatBoostSourceTable.map Prod.snd).Nodup := by decide

end Selection

/-! ## Unknown tags -/

/-- C1: for each of the five tag-match resolvers, whenever the probe decodes
to a tag that is not one of the family's literals (the empty tag of an absent
field and "bogus" among them), the resolver returns a nil value together with
the error "unknown type"; no variant is selected. -/
theorem unknown_tag_is_unknown_type {Raw : Type}
    {TO : MessageOriginVariant → Type} {TC : ChatMemberVariant → Type}
    {TR : ReactionTypeVariant → Type} {TM : MenuButtonVariant → Type}
    {TB : ChatBoostSourceVariant → Type}
    (JO : Unmarshaler Raw String MessageOriginVariant TO)
    (JC : Unmarshaler Raw String ChatMemberVariant TC)
    (JR : Unmarshaler Raw String ReactionTypeVariant TR)
    (JM : Unmarshaler Raw String MenuButtonVariant TM)
    (JB : Unmarshaler Raw String ChatBoostSourceVariant TB)
    (rawBytes : Raw) (tag : String) :
    (JO.probe rawBytes = .ok tag → tag ∉ ["user", "hidden_user", "chat", "channel"] →
      unmarshalMessageOrigin JO rawBytes = (none, some (Error.errorsNew "unknown type")))
    ∧ (JC.probe rawBytes = .ok tag →
      tag ∉ ["creator", "administrator", "member", "restricted", "left", "kicked"] →
      unmarshalChatMember JC rawBytes = (none, some (Error.errorsNew "unknown type")))
    ∧ (JR.probe rawBytes = .ok tag → tag ∉ ["emoji", "custom_emoji"] →
      unmarshalReactionType JR rawBytes = (none, some (Error.errorsNew "unknown type")))
    ∧ (JM.probe rawBytes = .ok tag → tag ∉ ["commands", "web_app", "default"] →
      unmarshalMenuButton JM rawBytes = (none, some (Error.errorsNew "unknown type")))
    ∧ (JB.probe rawBytes = .ok tag → tag ∉ ["premium", "gift_code", "giveaway"] →
      unmarshalChatBoostSource JB rawBytes = (none, some (Error.errorsNew "unknown type"))) := by
  refine ⟨?_, ?_, ?_, ?_, ?_⟩
  · intro h hn
    rw [unmarshalMessageOrigin_of_probe JO rawBytes tag h, lookup_of_not_listed _ _ hn]
  · intro h hn
    rw [unmarshalChatMember_of_probe JC rawBytes tag h, lookup_of_not_listed _ _ hn]
  · intro h hn
    rw [unmarshalReactionType_of_probe JR rawBytes tag h, lookup_of_not_listed _ _ hn]
  · intro h hn
    rw [unmarshalMenuButton_of_probe JM rawBytes tag h, lookup_of_not_listed _ _ hn]
  · intro h hn
    rw [unmarshalChatBoostSource_of_probe JB rawBytes tag h, lookup_of_not_listed _ _ hn]

/-- The payload with the tag "bogus" under every tag name, and the empty
object, whose tag is empty: all five resolvers answer "unknown type". -/
theorem unknown_tag_is_unknown_type_witness :
    (unmarshalMessageOrigin Json.messageOrigin Json.bogusPayload
        = (none, some (Error.errorsNew "unknown type"))
      ∧ unmarshalChatMember Json.chatMember Json.bogusPayload
        = (none, some (Error.errorsNew "unknown type"))
      ∧ unmarshalReactionType Json.reactionType Json.bogusPayload
        = (none, some (Error.errorsNew "unknown type"))
      ∧ unmarshalMenuButton Json.menuButton Json.bogusPayload
        = (none, some (Error.errorsNew "unknown type"))
      ∧ unmarshalChatBoostSource Json.chatBoostSource Json.bogusPayload
        = (none, some (Error.errorsNew "unknown type")))
    ∧ (unmarshalMessageOrigin Json.messageOrigin Json.emptyPayload
        = (none, some (Error.errorsNew "unknown type"))
      ∧ unmarshalChatMember Json.chatMember Json.emptyPayload
        = (none, some (Error.errorsNew "unknown type"))
      ∧ unmarshalReactionType Json.reactionType Json.emptyPayload
        = (none, some (Error.errorsNew "unknown type"))
      ∧ unmarshalMenuButton Json.menuButton Json.emptyPayload
        = (none, some (Error.errorsNew "unknown type"))
      ∧ unmarshalChatBoostSource Json.chatBoostSource Json.emptyPayload
        = (none, some (Error.errorsNew "unknown type"))) := by
  have hb := unknown_tag_is_unknown_type Json.messageOrigin Json.chatMember Json.reactionType
    Json.menuButton Json.chatBoostSource Json.bogusPayload "bogus"
  have he := unknown_tag_is_unknown_type Json.messageOrigin Json.chatMember Json.reactionType
    Json.menuButton Json.chatBoostSource Json.emptyPayload ""
  exact ⟨⟨hb.1 rfl (by decide), hb.2.1 rfl (by decide), hb.2.2.1 rfl (by decide),
      hb.2.2.2.1 rfl (by decide), hb.2.2.2.2 rfl (by decide)⟩,
    ⟨he.1 rfl (by decide), he.2.1 rfl (by decide), he.2.2.1 rfl (by decide),
      he.2.2.2.1 rfl (by decide), he.2.2.2.2 rfl (by decide)⟩⟩

/-! ## Listed tags -/

/-- C2: for every tag-match family and every literal of its table, a payload
whose probe yields that literal is decoded into the variant the table gives
for it (the value returned is that variant's target, the error the full
decoder's); and for listed literals the variants selected for two payloads
are the same exactly when the literals are: the variant depends on the
literal alone and distinct literals select distinct variants. -/
theorem listed_tag_selects_its_variant {Raw : Type}
    {TO : MessageOriginVariant → Type} {TC : ChatMemberVariant → Type}
    {TR : ReactionTypeVariant → Type} {TM : MenuButtonVariant → Type}
    {TB : ChatBoostSourceVariant → Type}
    (JO : Unmarshaler Raw String MessageOriginVariant TO)
    (JC : Unmarshaler Raw String ChatMemberVariant TC)
    (JR : Unmarshaler Raw String ReactionTypeVariant TR)
    (JM : Unmarshaler Raw String MenuButtonVariant TM)
    (JB : Unmarshaler Raw String ChatBoostSourceVariant TB) :
    ((∀ (rawBytes : Raw) (tag : String) (k : MessageOriginVariant),
        (tag, k) ∈ messageOriginTable → JO.probe rawBytes = .ok tag →
        unmarshalMessageOrigin JO rawBytes
          = (some ⟨k, (JO.decode k rawBytes).1⟩, (JO.decode k rawBytes).2))
      ∧ (∀ (raw₁ raw₂ : Raw) (tag₁ tag₂ : String),
        tag₁ ∈ literals messageOriginTable → tag₂ ∈ literals messageOriginTable →
        JO.probe raw₁ = .ok tag₁ → JO.probe raw₂ = .ok tag₂ →
        (variantOf (unmarshalMessageOrigin JO raw₁) = variantOf (unmarshalMessageOrigin JO raw₂)
          ↔ tag₁ = tag₂)))
    ∧ ((∀ (rawBytes : Raw) (tag : String) (k : ChatMemberVariant),
        (tag, k) ∈ chatMemberTable → JC.probe rawBytes = .ok tag →
        unmarshalChatMember JC rawBytes
          = (some ⟨k, (JC.decode k rawBytes).1⟩, (JC.decode k rawBytes).2))
      ∧ (∀ (raw₁ raw₂ : Raw) (tag₁ tag₂ : String),
        tag₁ ∈ literals chatMemberTable → tag₂ ∈ literals chatMemberTable →
        JC.probe raw₁ = .ok tag₁ → JC.probe raw₂ = .ok tag₂ →
        (variantOf (unmarshalChatMember JC raw₁) = variantOf (unmarshalChatMember JC raw₂)
          ↔ tag₁ = tag₂)))
    ∧ ((∀ (rawBytes : Raw) (tag : String) (k : ReactionTypeVariant),
        (tag, k) ∈ reactionTypeTable → JR.probe rawBytes = .ok tag →
        unmarshalReactionType JR rawBytes
          = (some ⟨k, (JR.decode k rawBytes).1⟩, (JR.decode k rawBytes).2))
      ∧ (∀ (raw₁ raw₂ : Raw) (tag₁ tag₂ : String),
        tag₁ ∈ literals reactionTypeTable → tag₂ ∈ literals reactionTypeTable →
        JR.probe raw₁ = .ok tag₁ → JR.probe raw₂ = .ok tag₂ →
        (variantOf (unmarshalReactionType JR raw₁) = variantOf (unmarshalReactionType JR raw₂)
          ↔ tag₁ = tag₂)))
    ∧ ((∀ (rawBytes : Raw) (tag : String) (k : MenuButtonVariant),
        (tag, k) ∈ menuButtonTable → JM.probe rawBytes = .ok tag →
        unmarshalMenuButton JM rawBytes
          = (some ⟨k, (JM.decode k rawBytes).1⟩, (JM.decode k rawBytes).2))
      ∧ (∀ (raw₁ raw₂ : Raw) (tag₁ tag₂ : String),
        tag₁ ∈ literals menuButtonTable → tag₂ ∈ literals menuButtonTable →
        JM.probe raw₁ = .ok tag₁ → JM.probe raw₂ = .ok tag₂ →
        (variantOf (unmarshalMenuButton JM raw₁) = variantOf (unmarshalMenuButton JM raw₂)
          ↔ tag₁ = tag₂)))
    ∧ ((∀ (rawBytes : Raw) (tag : String) (k : ChatBoostSourceVariant),
        (tag, k) ∈ chatBoostSourceTable → JB.probe rawBytes = .ok tag →
        unmarshalChatBoostSource JB rawBytes
          = (some ⟨k, (JB.decode k rawBytes).1⟩, (JB.decode k rawBytes).2))
      ∧ (∀ (raw₁ raw₂ : Raw) (tag₁ tag₂ : String),
        tag₁ ∈ literals chatBoostSourceTable → tag₂ ∈ literals chatBoostSourceTable →
        JB.probe raw₁ = .ok tag₁ → JB.probe raw₂ = .ok tag₂ →
        (variantOf (unmarshalChatBoostSource JB raw₁) = variantOf (unmarshalChatBoostSource JB raw₂)
          ↔ tag₁ = tag₂))) := by
  refine ⟨?_, ?_, ?_, ?_, ?_⟩
  · refine ⟨?_, ?_⟩
    · intro rawBytes tag k hm h
      rw [unmarshalMessageOrigin_of_probe JO rawBytes tag h,
        lookup_of_mem _ _ _ messageOriginTable_literals_nodup hm]
      rfl
    · intro raw₁ raw₂ tag₁ tag₂ h₁ _ p₁ p₂
      rw [unmarshalMessageOrigin_of_probe JO raw₁ tag₁ p₁, unmarshalMessageOrigin_of_probe JO raw₂ tag₂ p₂,
        ← lookup_eq_iff messageOriginTable tag₁ tag₂ messageOriginTable_variants_nodup h₁]
      generalize List.lookup tag₁ messageOriginTable = o₁
      generalize List.lookup tag₂ messageOriginTable = o₂
      cases o₁ <;> cases o₂ <;> simp [variantOf, decodeInto]
  · refine ⟨?_, ?_⟩
    · intro rawBytes tag k hm h
      rw [unmarshalChatMember_of_probe JC rawBytes tag h,
        lookup_of_mem _ _ _ chatMemberTable_literals_nodup hm]
      rfl
    · intro raw₁ raw₂ tag₁ tag₂ h₁ _ p₁ p₂
      rw [unmarshalChatMember_of_probe JC raw₁ tag₁ p₁, unmarshalChatMember_of_probe JC raw₂ tag₂ p₂,
        ← lookup_eq_iff chatMemberTable tag₁ tag₂ chatMemberTable_variants_nodup h₁]
      generalize List.lookup tag₁ chatMemberTable = o₁
      generalize List.lookup tag₂ chatMemberTable = o₂
      cases o₁ <;> cases o₂ <;> simp [variantOf, decodeInto]
  · refine ⟨?_, ?_⟩
    · intro rawBytes tag k hm h
      rw [unmarshalReactionType_of_probe JR rawBytes tag h,
        lookup_of_mem _ _ _ reactionTypeTable_literals_nodup hm]
      rfl
    · intro raw₁ raw₂ tag₁ tag₂ h₁ _ p₁ p₂
      rw [unmarshalReactionType_of_probe JR raw₁ tag₁ p₁, unmarshalReactionType_of_probe JR raw₂ tag₂ p₂,
        ← lookup_eq_iff reactionTypeTable tag₁ tag₂ reactionTypeTable_variants_nodup h₁]
      generalize List.lookup tag₁ reactionTypeTable = o₁
      generalize List.lookup tag₂ reactionTypeTable = o₂
      cases o₁ <;> cases o₂ <;> simp [variantOf, decodeInto]
  · refine ⟨?_, ?_⟩
    · intro rawBytes tag k hm h
      rw [unmarshalMenuButton_of_probe JM rawBytes tag h,
        lookup_of_mem _ _ _ menuButtonTable_literals_nodup hm]
      rfl
    · intro raw₁ raw₂ tag₁ tag₂ h₁ _ p₁ p₂
      rw [unmarshalMenuButton_of_probe JM raw₁ tag₁ p₁, unmarshalMenuButton_of_probe JM raw₂ tag₂ p₂,
        ← lookup_eq_iff menuButtonTable tag₁ tag₂ menuButtonTable_variants_nodup h₁]
      generalize List.lookup tag₁ menuButtonTable = o₁
      generalize List.lookup tag₂ menuButtonTable = o₂
      cases o₁ <;> cases o₂ <;> simp [variantOf, decodeInto]
  · refine ⟨?_, ?_⟩
    · intro rawBytes tag k hm h
      rw [unmarshalChatBoostSource_of_probe JB rawBytes tag h,
        lookup_of_mem _ _ _ chatBoostSourceTable_literals_nodup hm]
      rfl
    · intro raw₁ raw₂ tag₁ tag₂ h₁ _ p₁ p₂
      rw [unmarshalChatBoostSource_of_probe JB raw₁ tag₁ p₁, unmarshalChatBoostSource_of_probe JB raw₂ tag₂ p₂,
        ← lookup_eq_iff chatBoostSourceTable tag₁ tag₂ chatBoostSourceTable_variants_nodup h₁]
      generalize List.lookup tag₁ chatBoostSourceTable = o₁
      generalize List.lookup tag₂ chatBoostSourceTable = o₂
      cases o₁ <;> cases o₂ <;> simp [variantOf, decodeInto]

/-- One listed literal of each family on a payload, and two message origins
with different literals. -/
theorem listed_tag_selects_its_variant_witness :
    unmarshalMessageOrigin Json.messageOrigin Json.userPayload
      = (some ⟨.MessageOriginUser, [("type", .string "user"), ("date", .int64 1700000000)]⟩, none)
    ∧ unmarshalChatMember Json.chatMember Json.kickedPayload
      = (some ⟨.ChatMemberBanned, [("status", .string "kicked"), ("until_date", .int64 0)]⟩, none)
    ∧ unmarshalReactionType Json.reactionType Json.customEmojiPayload
      = (some ⟨.ReactionTypeCustomEmoji,
          [("type", .string "custom_emoji"), ("custom_emoji_id", .string "5")]⟩, none)
    ∧ unmarshalMenuButton Json.menuButton Json.webAppPayload
      = (some ⟨.MenuButtonWebApp, [("type", .string "web_app"), ("text", .string "Open")]⟩, none)
    ∧ unmarshalChatBoostSource Json.chatBoostSource Json.giveawayPayload
      = (some ⟨.ChatBoostSourceGiveaway,
          [("source", .string "giveaway"), ("giveaway_message_id", .int64 9),
           ("is_unclaimed", .bool false)]⟩, none)
    ∧ variantOf (unmarshalMessageOrigin Json.messageOrigin Json.userPayload)
      ≠ variantOf (unmarshalMessageOrigin Json.messageOrigin Json.chatPayload) := by
  have h := listed_tag_selects_its_variant Json.messageOrigin Json.chatMember Json.reactionType
    Json.menuButton Json.chatBoostSource
  refine ⟨h.1.1 Json.userPayload "user" .MessageOriginUser (by decide) rfl,
    h.2.1.1 Json.kickedPayload "kicked" .ChatMemberBanned (by decide) rfl,
    h.2.2.1.1 Json.customEmojiPayload "custom_emoji" .ReactionTypeCustomEmoji (by decide) rfl,
    h.2.2.2.1.1 Json.webAppPayload "web_app" .MenuButtonWebApp (by decide) rfl,
    h.2.2.2.2.1 Json.giveawayPayload "giveaway" .ChatBoostSourceGiveaway (by decide) rfl, ?_⟩
  intro hv
  exact absurd
    ((h.1.2 Json.userPayload Json.chatPayload "user" "chat" (by decide) (by decide) rfl rfl).mp hv)
    (by decide)

/-! ## Presence rules -/

/-- C3: `unmarshalInputMessageContent` selects the variant of the first field
found set in the order message_text, address, latitude, phone_number,
description, whatever the later fields are; in particular a payload without
message_text and with both address and latitude is a venue, not a location. -/
theorem first_set_field_selects {Raw Float64 : Type} {T : InputMessageContentVariant → Type}
    (J : Unmarshaler Raw (InputMessageContentProbe Float64) InputMessageContentVariant T)
    (rawBytes : Raw) (temp : InputMessageContentProbe Float64)
    (h : J.probe rawBytes = .ok temp) :
    (temp.MessageText ≠ none →
      unmarshalInputMessageContent J rawBytes = decodeInto J .InputTextMessageContent rawBytes)
    ∧ (temp.MessageText = none → temp.Address ≠ none →
      unmarshalInputMessageContent J rawBytes = decodeInto J .InputVenueMessageContent rawBytes)
    ∧ (temp.MessageText = none → temp.Address = none → temp.Latitude ≠ none →
      unmarshalInputMessageContent J rawBytes
        = decodeInto J .InputLocationMessageContent rawBytes)
    ∧ (temp.MessageText = none → temp.Address = none → temp.Latitude = none →
      temp.PhoneNumber ≠ none →
      unmarshalInputMessageContent J rawBytes
        = decodeInto J .InputContactMessageContent rawBytes)
    ∧ (temp.MessageText = none → temp.Address = none → temp.Latitude = none →
      temp.PhoneNumber = none → temp.Description ≠ none →
      unmarshalInputMessageContent J rawBytes
        = decodeInto J .InputInvoiceMessageContent rawBytes)
    ∧ (temp.MessageText = none → temp.Address ≠ none → temp.Latitude ≠ none →
      variantOf (unmarshalInputMessageContent J rawBytes) = some .InputVenueMessageContent
      ∧ variantOf (unmarshalInputMessageContent J rawBytes)
        ≠ some .InputLocationMessageContent) := by
  rw [unmarshalInputMessageContent_of_probe J rawBytes temp h]
  refine ⟨?_, ?_, ?_, ?_, ?_, ?_⟩
  · intro h1
    simp [inputMessageContentRules, firstSet, Option.isSome_iff_ne_none, h1]
  · intro h1 h2
    simp [inputMessageContentRules, firstSet, Option.isSome_iff_ne_none, h1, h2]
  · intro h1 h2 h3
    simp [inputMessageContentRules, firstSet, Option.isSome_iff_ne_none, h1, h2, h3]
  · intro h1 h2 h3 h4
    simp [inputMessageContentRules, firstSet, Option.isSome_iff_ne_none, h1, h2, h3, h4]
  · intro h1 h2 h3 h4 h5
    simp [inputMessageContentRules, firstSet, Option.isSome_iff_ne_none, h1, h2, h3, h4, h5]
  · intro h1 h2 _
    simp [inputMessageContentRules, firstSet, Option.isSome_iff_ne_none, h1, h2, variantOf,
      decodeInto]

/-- A text with an address and a latitude is a text; an address with a
latitude is a venue; the other three payloads select their own variant. -/
theorem first_set_field_selects_witness :
    unmarshalInputMessageContent Json.inputMessageContent Json.textWithAddressPayload
      = decodeInto Json.inputMessageContent .InputTextMessageContent Json.textWithAddressPayload
    ∧ unmarshalInputMessageContent Json.inputMessageContent Json.venuePayload
      = decodeInto Json.inputMessageContent .InputVenueMessageContent Json.venuePayload
    ∧ unmarshalInputMessageContent Json.inputMessageContent Json.locationPayload
      = decodeInto Json.inputMessageContent .InputLocationMessageContent Json.locationPayload
    ∧ unmarshalInputMessageContent Json.inputMessageContent Json.contactPayload
      = decodeInto Json.inputMessageContent .InputContactMessageContent Json.contactPayload
    ∧ unmarshalInputMessageContent Json.inputMessageContent Json.invoicePayload
      = decodeInto Json.inputMessageContent .InputInvoiceMessageContent Json.invoicePayload
    ∧ (variantOf (unmarshalInputMessageContent Json.inputMessageContent Json.venuePayload)
        = some .InputVenueMessageContent
      ∧ variantOf (unmarshalInputMessageContent Json.inputMessageContent Json.venuePayload)
        ≠ some .InputLocationMessageContent) :=
  ⟨(first_set_field_selects Json.inputMessageContent Json.textWithAddressPayload
      ⟨some "hi", some 35, some "x", none, none⟩ rfl).1 (by decide),
   (first_set_field_selects Json.inputMessageContent Json.venuePayload
      ⟨none, some 35, some "x", none, none⟩ rfl).2.1 rfl (by decide),
   (first_set_field_selects Json.inputMessageContent Json.locationPayload
      ⟨none, some 35, none, none, none⟩ rfl).2.2.1 rfl rfl (by decide),
   (first_set_field_selects Json.inputMessageContent Json.contactPayload
      ⟨none, none, none, some "1", some "d"⟩ rfl).2.2.2.1 rfl rfl rfl (by decide),
   (first_set_field_selects Json.inputMessageContent Json.invoicePayload
      ⟨none, none, none, none, some "d"⟩ rfl).2.2.2.2.1 rfl rfl rfl rfl (by decide),
   (first_set_field_selects Json.inputMessageContent Json.venuePayload
      ⟨none, some 35, some "x", none, none⟩ rfl).2.2.2.2.2 rfl (by decide) (by decide)⟩

/-- C6: when the probe decodes and none of message_text, address, latitude,
phone_number, description is set, `unmarshalInputMessageContent` returns a nil
value and the error "unknown type". -/
theorem no_field_set_is_unknown_type {Raw Float64 : Type}
    {T : InputMessageContentVariant → Type}
    (J : Unmarshaler Raw (InputMessageContentProbe Float64) InputMessageContentVariant T)
    (rawBytes : Raw) (temp : InputMessageContentProbe Float64)
    (h : J.probe rawBytes = .ok temp)
    (hText : temp.MessageText = none) (hAddress : temp.Address = none)
    (hLatitude : temp.Latitude = none) (hPhone : temp.PhoneNumber = none)
    (hDescription : temp.Description = none) :
    unmarshalInputMessageContent J rawBytes = (none, some (Error.errorsNew "unknown type")) := by
  rw [unmarshalInputMessageContent_of_probe J rawBytes temp h]
  simp [inputMessageContentRules, firstSet, hText, hAddress, hLatitude, hPhone, hDescription]

/-- The empty object and an object with only an unrelated field. -/
theorem no_field_set_is_unknown_type_witness :
    unmarshalInputMessageContent Json.inputMessageContent Json.emptyPayload
      = (none, some (Error.errorsNew "unknown type"))
    ∧ unmarshalInputMessageContent Json.inputMessageContent Json.unrelatedPayload
      = (none, some (Error.errorsNew "unknown type")) :=
  ⟨no_field_set_is_unknown_type Json.inputMessageContent Json.emptyPayload
      ⟨none, none, none, none, none⟩ rfl rfl rfl rfl rfl rfl,
   no_field_set_is_unknown_type Json.inputMessageContent Json.unrelatedPayload
      ⟨none, none, none, none, none⟩ rfl rfl rfl rfl rfl rfl⟩

/-! ## The zero-timestamp rule -/

namespace Json


end Json

section Outcome

variable {Raw : Type}

theorem unmarshalMaybeInaccessibleMessage_outcome {T : MaybeInaccessibleMessageVariant → Type}
    (J : Unmarshaler Raw Int MaybeInaccessibleMessageVariant T) (rawBytes : Raw) :
    (∃ e, J.probe rawBytes = .error e ∧ unmarshalMaybeInaccessibleMessage J rawBytes = (none, some (Error.json e)))
    ∨ ((∃ p, J.probe rawBytes = .ok p)
        ∧ unmarshalMaybeInaccessibleMessage J rawBytes = (none, some (Error.errorsNew "unknown type")))
    ∨ ((∃ p, J.probe rawBytes = .ok p)
        ∧ ∃ k, unmarshalMaybeInaccessibleMessage J rawBytes = decodeInto J k rawBytes) := by
  unfold unmarshalMaybeInaccessibleMessage
  cases h : J.probe rawBytes with
  | error e => exact Or.inl ⟨e, rfl, rfl⟩
  | ok p =>
    right
    simp only []
    split_ifs
    all_goals exact Or.inr ⟨⟨p, rfl⟩, _, rfl⟩

theorem unmarshalMessageOrigin_outcome {T : MessageOriginVariant → Type}
    (J : Unmarshaler Raw String MessageOriginVariant T) (rawBytes : Raw) :
    (∃ e, J.probe rawBytes = .error e ∧ unmarshalMessageOrigin J rawBytes = (none, some (Error.json e)))
    ∨ ((∃ p, J.probe rawBytes = .ok p)
        ∧ unmarshalMessageOrigin J rawBytes = (none, some (Error.errorsNew "unknown type")))
    ∨ ((∃ p, J.probe rawBytes = .ok p)
        ∧ ∃ k, unmarshalMessageOrigin J rawBytes = decodeInto J k rawBytes) := by
  unfold unmarshalMessageOrigin
  cases h : J.probe rawBytes with
  | error e => exact Or.inl ⟨e, rfl, rfl⟩
  | ok p =>
    right
    simp only []
    split_ifs
    all_goals first
      | exact Or.inr ⟨⟨p, rfl⟩, _, rfl⟩
      | exact Or.inl ⟨⟨p, rfl⟩, rfl⟩

theorem unmarshalChatMember_outcome {T : ChatMemberVariant → Type}
    (J : Unmarshaler Raw String ChatMemberVariant T) (rawBytes : Raw) :
    (∃ e, J.probe rawBytes = .error e ∧ unmarshalChatMember J rawBytes = (none, some (Error.json e)))
    ∨ ((∃ p, J.probe rawBytes = .ok p)
        ∧ unmarshalChatMember J rawBytes = (none, some (Error.errorsNew "unknown type")))
    ∨ ((∃ p, J.probe rawBytes = .ok p)
        ∧ ∃ k, unmarshalChatMember J rawBytes = decodeInto J k rawBytes) := by
  unfold unmarshalChatMember
  cases h : J.probe rawBytes with
  | error e => exact Or.inl ⟨e, rfl, rfl⟩
  | ok p =>
    right
    simp only []
    split_ifs
    all_goals first
      | exact Or.inr ⟨⟨p, rfl⟩, _, rfl⟩
      | exact Or.inl ⟨⟨p, rfl⟩, rfl⟩

theorem unmarshalReactionType_outcome {T : ReactionTypeVariant → Type}
    (J : Unmarshaler Raw String ReactionTypeVariant T) (rawBytes : Raw) :
    (∃ e, J.probe rawBytes = .error e ∧ unmarshalReactionType J rawBytes = (none, some (Error.json e)))
    ∨ ((∃ p, J.probe rawBytes = .ok p)
        ∧ unmarshalReactionType J rawBytes = (none, some (Error.errorsNew "unknown type")))
    ∨ ((∃ p, J.probe rawBytes = .ok p)
        ∧ ∃ k, unmarshalReactionType J rawBytes = decodeInto J k rawBytes) := by
  unfold unmarshalReactionType
  cases h : J.probe rawBytes with
  | error e => exact Or.inl ⟨e, rfl, rfl⟩
  | ok p =>
    right
    simp only []
    split_ifs
    all_goals first
      | exact Or.inr ⟨⟨p, rfl⟩, _, rfl⟩
      | exact Or.inl ⟨⟨p, rfl⟩, rfl⟩

theorem unmarshalMenuButton_outcome {T : MenuButtonVariant → Type}
    (J : Unmarshaler Raw String MenuButtonVariant T) (rawBytes : Raw) :
    (∃ e, J.probe rawBytes = .error e ∧ unmarshalMenuButton J rawBytes = (none, some (Error.json e)))
    ∨ ((∃ p, J.probe rawBytes = .ok p)
        ∧ unmarshalMenuButton J rawBytes = (none, some (Error.errorsNew "unknown type")))
    ∨ ((∃ p, J.probe rawBytes = .ok p)
        ∧ ∃ k, unmarshalMenuButton J rawBytes = decodeInto J k rawBytes) := by
  unfold unmarshalMenuButton
  cases h : J.probe rawBytes with
  | error e => exact Or.inl ⟨e, rfl, rfl⟩
  | ok p =>
    right
    simp only []
    split_ifs
    all_goals first
      | exact Or.inr ⟨⟨p, rfl⟩, _, rfl⟩
      | exact Or.inl ⟨⟨p, rfl⟩, rfl⟩

theorem unmarshalChatBoostSource_outcome {T : ChatBoostSourceVariant → Type}
    (J : Unmarshaler Raw String ChatBoostSourceVariant T) (rawBytes : Raw) :
    (∃ e, J.probe rawBytes = .error e ∧ unmarshalChatBoostSource J rawBytes = (none, some (Error.json e)))
    ∨ ((∃ p, J.probe rawBytes = .ok p)
        ∧ unmarshalChatBoostSource J rawBytes = (none, some (Error.errorsNew "unknown type")))
    ∨ ((∃ p, J.probe rawBytes = .ok p)
        ∧ ∃ k, unmarshalChatBoostSource J rawBytes = decodeInto J k rawBytes) := by
  unfold unmarshalChatBoostSource
  cases h : J.probe rawBytes with
  | error e => exact Or.inl ⟨e, rfl, rfl⟩
  | ok p =>
    right
    simp only []
    split_ifs
    all_goals first
      | exact Or.inr ⟨⟨p, rfl⟩, _, rfl⟩
      | exact Or.inl ⟨⟨p, rfl⟩, rfl⟩

theorem unmarshalInputMessageContent_outcome {Float64 : Type} {T : InputMessageContentVariant → Type}
    (J : Unmarshaler Raw (InputMessageContentProbe Float64) InputMessageContentVariant T) (rawBytes : Raw) :
    (∃ e, J.probe rawBytes = .error e ∧ unmarshalInputMessageContent J rawBytes = (none, some (Error.json e)))
    ∨ ((∃ p, J.probe rawBytes = .ok p)
        ∧ unmarshalInputMessageContent J rawBytes = (none, some (Error.errorsNew "unknown type")))
    ∨ ((∃ p, J.probe rawBytes = .ok p)
        ∧ ∃ k, unmarshalInputMessageContent J rawBytes = decodeInto J k rawBytes) := by
  unfold unmarshalInputMessageContent
  cases h : J.probe rawBytes with
  | error e => exact Or.inl ⟨e, rfl, rfl⟩
  | ok p =>
    right
    simp only []
    split_ifs
    all_goals first
      | exact Or.inr ⟨⟨p, rfl⟩, _, rfl⟩
      | exact Or.inl ⟨⟨p, rfl⟩, rfl⟩

end Outcome

/-! ## Value and error -/

/-- C7, as stated, fails: on `{"type": "user", "date": "x"}` the probe
and the selection succeed, the full decode of `MessageOriginUser` fails, and
`unmarshalMessageOrigin` returns the target it allocated together with the
decoder's error: both are non-nil. -/
theorem value_and_error_both_returned :
    unmarshalMessageOrigin Json.messageOrigin Json.userWithBadDate
      = (some ⟨.MessageOriginUser, [("type", .string "user"), ("date", .int64 0)]⟩,
          some (Error.json (.UnmarshalTypeError "string" "date")))
    ∧ (unmarshalMessageOrigin Json.messageOrigin Json.userWithBadDate).2 ≠ none
    ∧ (unmarshalMessageOrigin Json.messageOrigin Json.userWithBadDate).1 ≠ none := by
  refine ⟨rfl, ?_, ?_⟩ <;> decide

/-- C7, amended: each of the seven resolvers returns a nil value with the
probe's error when the probe fails, a nil value with "unknown type" when the
probe succeeds and no rule matches, and otherwise, the rule selecting the
variant `k`, the target of `k` as the full decode left it together with the
error of that decode, whatever it is: when the full decode fails the value is
still the non-nil target and the error is the decoder's.  A nil error always
comes with a non-nil variant. -/
theorem value_or_error_shape {Raw Float64 : Type}
    {TD : MaybeInaccessibleMessageVariant → Type}
    {TO : MessageOriginVariant → Type} {TC : ChatMemberVariant → Type}
    {TR : ReactionTypeVariant → Type} {TM : MenuButtonVariant → Type}
    {TB : ChatBoostSourceVariant → Type} {TI : InputMessageContentVariant → Type}
    (JD : Unmarshaler Raw Int MaybeInaccessibleMessageVariant TD)
    (JO : Unmarshaler Raw String MessageOriginVariant TO)
    (JC : Unmarshaler Raw String ChatMemberVariant TC)
    (JR : Unmarshaler Raw String ReactionTypeVariant TR)
    (JM : Unmarshaler Raw String MenuButtonVariant TM)
    (JB : Unmarshaler Raw String ChatBoostSourceVariant TB)
    (JI : Unmarshaler Raw (InputMessageContentProbe Float64) InputMessageContentVariant TI)
    (rawBytes : Raw) :
    ((∀ e, JD.probe rawBytes = .error e →
        unmarshalMaybeInaccessibleMessage JD rawBytes = (none, some (Error.json e)))
      ∧ (∀ date, JD.probe rawBytes = .ok date →
        unmarshalMaybeInaccessibleMessage JD rawBytes
          = (some ⟨variantOfDate date, (JD.decode (variantOfDate date) rawBytes).1⟩,
              (JD.decode (variantOfDate date) rawBytes).2))
      ∧ ((unmarshalMaybeInaccessibleMessage JD rawBytes).2 = none → (unmarshalMaybeInaccessibleMessage JD rawBytes).1 ≠ none))
    ∧ ((∀ e, JO.probe rawBytes = .error e →
        unmarshalMessageOrigin JO rawBytes = (none, some (Error.json e)))
      ∧ (∀ tag, JO.probe rawBytes = .ok tag → tag ∉ literals messageOriginTable →
        unmarshalMessageOrigin JO rawBytes = (none, some (Error.errorsNew "unknown type")))
      ∧ (∀ tag k, JO.probe rawBytes = .ok tag → (tag, k) ∈ messageOriginTable →
        unmarshalMessageOrigin JO rawBytes
          = (some ⟨k, (JO.decode k rawBytes).1⟩, (JO.decode k rawBytes).2))
      ∧ ((unmarshalMessageOrigin JO rawBytes).2 = none → (unmarshalMessageOrigin JO rawBytes).1 ≠ none))
    ∧ ((∀ e, JC.probe rawBytes = .error e →
        unmarshalChatMember JC rawBytes = (none, some (Error.json e)))
      ∧ (∀ tag, JC.probe rawBytes = .ok tag → tag ∉ literals chatMemberTable →
        unmarshalChatMember JC rawBytes = (none, some (Error.errorsNew "unknown type")))
      ∧ (∀ tag k, JC.probe rawBytes = .ok tag → (tag, k) ∈ chatMemberTable →
        unmarshalChatMember JC rawBytes
          = (some ⟨k, (JC.decode k rawBytes).1⟩, (JC.decode k rawBytes).2))
      ∧ ((unmarshalChatMember JC rawBytes).2 = none → (unmarshalChatMember JC rawBytes).1 ≠ none))
    ∧ ((∀ e, JR.probe rawBytes = .error e →
        unmarshalReactionType JR rawBytes = (none, some (Error.json e)))
      ∧ (∀ tag, JR.probe rawBytes = .ok tag → tag ∉ literals reactionTypeTable →
        unmarshalReactionType JR rawBytes = (none, some (Error.errorsNew "unknown type")))
      ∧ (∀ tag k, JR.probe rawBytes = .ok tag → (tag, k) ∈ reactionTypeTable →
        unmarshalReactionType JR rawBytes
          = (some ⟨k, (JR.decode k rawBytes).1⟩, (JR.decode k rawBytes).2))
      ∧ ((unmarshalReactionType JR rawBytes).2 = none → (unmarshalReactionType JR rawBytes).1 ≠ none))
    ∧ ((∀ e, JM.probe rawBytes = .error e →
        unmarshalMenuButton JM rawBytes = (none, some (Error.json e)))
      ∧ (∀ tag, JM.probe rawBytes = .ok tag → tag ∉ literals menuButtonTable →
        unmarshalMenuButton JM rawBytes = (none, some (Error.errorsNew "unknown type")))
      ∧ (∀ tag k, JM.probe rawBytes = .ok tag → (tag, k) ∈ menuButtonTable →
        unmarshalMenuButton JM rawBytes
          = (some ⟨k, (JM.decode k rawBytes).1⟩, (JM.decode k rawBytes).2))
      ∧ ((unmarshalMenuButton JM rawBytes).2 = none → (unmarshalMenuButton JM rawBytes).1 ≠ none))
    ∧ ((∀ e, JB.probe rawBytes = .error e →
        unmarshalChatBoostSource JB rawBytes = (none, some (Error.json e)))
      ∧ (∀ tag, JB.probe rawBytes = .ok tag → tag ∉ literals chatBoostSourceTable →
        unmarshalChatBoostSource JB rawBytes = (none, some (Error.errorsNew "unknown type")))
      ∧ (∀ tag k, JB.probe rawBytes = .ok tag → (tag, k) ∈ chatBoostSourceTable →
        unmarshalChatBoostSource JB rawBytes
          = (some ⟨k, (JB.decode k rawBytes).1⟩, (JB.decode k rawBytes).2))
      ∧ ((unmarshalChatBoostSource JB rawBytes).2 = none → (unmarshalChatBoostSource JB rawBytes).1 ≠ none))
    ∧ ((∀ e, JI.probe rawBytes = .error e →
        unmarshalInputMessageContent JI rawBytes = (none, some (Error.json e)))
      ∧ (∀ temp, JI.probe rawBytes = .ok temp →
        firstSet (inputMessageContentRules temp) = none →
        unmarshalInputMessageContent JI rawBytes = (none, some (Error.errorsNew "unknown type")))
      ∧ (∀ temp k, JI.probe rawBytes = .ok temp →
        firstSet (inputMessageContentRules temp) = some k →
        unmarshalInputMessageContent JI rawBytes
          = (some ⟨k, (JI.decode k rawBytes).1⟩, (JI.decode k rawBytes).2))
      ∧ ((unmarshalInputMessageContent JI rawBytes).2 = none → (unmarshalInputMessageContent JI rawBytes).1 ≠ none)) := by
  refine ⟨?_, ?_, ?_, ?_, ?_, ?_, ?_⟩
  · refine ⟨?_, ?_, ?_⟩
    · intro e h
      simp only [unmarshalMaybeInaccessibleMessage, h]
    · intro date h
      rw [unmarshalMaybeInaccessibleMessage_of_probe JD rawBytes date h]
      rfl
    · rcases unmarshalMaybeInaccessibleMessage_outcome JD rawBytes with ⟨e, _, h⟩ | ⟨_, h⟩ | ⟨_, k, h⟩
      · rw [h]; simp
      · rw [h]; simp
      · rw [h]; simp [decodeInto]
  · refine ⟨?_, ?_, ?_, ?_⟩
    · intro e h
      simp only [unmarshalMessageOrigin, h]
    · intro tag h hn
      rw [unmarshalMessageOrigin_of_probe JO rawBytes tag h, lookup_of_not_listed _ _ hn]
    · intro tag k h hm
      rw [unmarshalMessageOrigin_of_probe JO rawBytes tag h,
        lookup_of_mem _ _ _ messageOriginTable_literals_nodup hm]
      rfl
    · rcases unmarshalMessageOrigin_outcome JO rawBytes with ⟨e, _, h⟩ | ⟨_, h⟩ | ⟨_, k, h⟩
      · rw [h]; simp
      · rw [h]; simp
      · rw [h]; simp [decodeInto]
  · refine ⟨?_, ?_, ?_, ?_⟩
    · intro e h
      simp only [unmarshalChatMember, h]
    · intro tag h hn
      rw [unmarshalChatMember_of_probe JC rawBytes tag h, lookup_of_not_listed _ _ hn]
    · intro tag k h hm
      rw [unmarshalChatMember_of_probe JC rawBytes tag h,
        lookup_of_mem _ _ _ chatMemberTable_literals_nodup hm]
      rfl
    · rcases unmarshalChatMember_outcome JC rawBytes with ⟨e, _, h⟩ | ⟨_, h⟩ | ⟨_, k, h⟩
      · rw [h]; simp
      · rw [h]; simp
      · rw [h]; simp [decodeInto]
  · refine ⟨?_, ?_, ?_, ?_⟩
    · intro e h
      simp only [unmarshalReactionType, h]
    · intro tag h hn
      rw [unmarshalReactionType_of_probe JR rawBytes tag h, lookup_of_not_listed _ _ hn]
    · intro tag k h hm
      rw [unmarshalReactionType_of_probe JR rawBytes tag h,
        lookup_of_mem _ _ _ reactionTypeTable_literals_nodup hm]
      rfl
    · rcases unmarshalReactionType_outcome JR rawBytes with ⟨e, _, h⟩ | ⟨_, h⟩ | ⟨_, k, h⟩
      · rw [h]; simp
      · rw [h]; simp
      · rw [h]; simp [decodeInto]
  · refine ⟨?_, ?_, ?_, ?_⟩
    · intro e h
      simp only [unmarshalMenuButton, h]
    · intro tag h hn
      rw [unmarshalMenuButton_of_probe JM rawBytes tag h, lookup_of_not_listed _ _ hn]
    · intro tag k h hm
      rw [unmarshalMenuButton_of_probe JM rawBytes tag h,
        lookup_of_mem _ _ _ menuButtonTable_literals_nodup hm]
      rfl
    · rcases unmarshalMenuButton_outcome JM rawBytes with ⟨e, _, h⟩ | ⟨_, h⟩ | ⟨_, k, h⟩
      · rw [h]; simp
      · rw [h]; simp
      · rw [h]; simp [decodeInto]
  · refine ⟨?_, ?_, ?_, ?_⟩
    · intro e h
      simp only [unmarshalChatBoostSource, h]
    · intro tag h hn
      rw [unmarshalChatBoostSource_of_probe JB rawBytes tag h, lookup_of_not_listed _ _ hn]
    · intro tag k h hm
      rw [unmarshalChatBoostSource_of_probe JB rawBytes tag h,
        lookup_of_mem _ _ _ chatBoostSourceTable_literals_nodup hm]
      rfl
    · rcases unmarshalChatBoostSource_outcome JB rawBytes with ⟨e, _, h⟩ | ⟨_, h⟩ | ⟨_, k, h⟩
      · rw [h]; simp
      · rw [h]; simp
      · rw [h]; simp [decodeInto]
  · refine ⟨?_, ?_, ?_, ?_⟩
    · intro e h
      simp only [unmarshalInputMessageContent, h]
    · intro temp h hs
      rw [unmarshalInputMessageContent_of_probe JI rawBytes temp h, hs]
    · intro temp k h hs
      rw [unmarshalInputMessageContent_of_probe JI rawBytes temp h, hs]
      rfl
    · rcases unmarshalInputMessageContent_outcome JI rawBytes with ⟨e, _, h⟩ | ⟨_, h⟩ | ⟨_, k, h⟩
      · rw [h]; simp
      · rw [h]; simp
      · rw [h]; simp [decodeInto]

/-- One payload per resolver whose full decode fails after the selection: the
target and the error are both returned; and a well-formed user origin, whose
error is nil and whose value is not. -/
theorem value_or_error_shape_witness :
    unmarshalMaybeInaccessibleMessage Json.maybeInaccessibleMessage Json.messageWithBadId
      = (some ⟨.Message, [("message_id", .int64 0), ("date", .int64 5), ("text", .string "")]⟩,
          some (Error.json (.UnmarshalTypeError "string" "message_id")))
    ∧ unmarshalMessageOrigin Json.messageOrigin Json.userWithBadDate
      = (some ⟨.MessageOriginUser, [("type", .string "user"), ("date", .int64 0)]⟩,
          some (Error.json (.UnmarshalTypeError "string" "date")))
    ∧ unmarshalChatMember Json.chatMember Json.kickedWithBadDate
      = (some ⟨.ChatMemberBanned, [("status", .string "kicked"), ("until_date", .int64 0)]⟩,
          some (Error.json (.UnmarshalTypeError "string" "until_date")))
    ∧ unmarshalReactionType Json.reactionType Json.emojiWithBadEmoji
      = (some ⟨.ReactionTypeEmoji, [("type", .string "emoji"), ("emoji", .string "")]⟩,
          some (Error.json (.UnmarshalTypeError "number" "emoji")))
    ∧ unmarshalMenuButton Json.menuButton Json.webAppWithBadText
      = (some ⟨.MenuButtonWebApp, [("type", .string "web_app"), ("text", .string "")]⟩,
          some (Error.json (.UnmarshalTypeError "number" "text")))
    ∧ unmarshalChatBoostSource Json.chatBoostSource Json.giveawayWithBadId
      = (some ⟨.ChatBoostSourceGiveaway, [("source", .string "giveaway"),
            ("giveaway_message_id", .int64 0), ("is_unclaimed", .bool false)]⟩,
          some (Error.json (.UnmarshalTypeError "string" "giveaway_message_id")))
    ∧ unmarshalInputMessageContent Json.inputMessageContent Json.textWithBadParseMode
      = (some ⟨.InputTextMessageContent,
            [("message_text", .string "hi"), ("parse_mode", .string "")]⟩,
          some (Error.json (.UnmarshalTypeError "number" "parse_mode")))
    ∧ ((unmarshalMessageOrigin Json.messageOrigin Json.userPayload).2 = none
      ∧ (unmarshalMessageOrigin Json.messageOrigin Json.userPayload).1 ≠ none) :=
  ⟨(value_or_error_shape Json.maybeInaccessibleMessage Json.messageOrigin Json.chatMember
      Json.reactionType Json.menuButton Json.chatBoostSource Json.inputMessageContent
      Json.messageWithBadId).1.2.1 5 rfl,
   (value_or_error_shape Json.maybeInaccessibleMessage Json.messageOrigin Json.chatMember
      Json.reactionType Json.menuButton Json.chatBoostSource Json.inputMessageContent
      Json.userWithBadDate).2.1.2.2.1 "user" .MessageOriginUser rfl (by decide),
   (value_or_error_shape Json.maybeInaccessibleMessage Json.messageOrigin Json.chatMember
      Json.reactionType Json.menuButton Json.chatBoostSource Json.inputMessageContent
      Json.kickedWithBadDate).2.2.1.2.2.1 "kicked" .ChatMemberBanned rfl (by decide),
   (value_or_error_shape Json.maybeInaccessibleMessage Json.messageOrigin Json.chatMember
      Json.reactionType Json.menuButton Json.chatBoostSource Json.inputMessageContent
      Json.emojiWithBadEmoji).2.2.2.1.2.2.1 "emoji" .ReactionTypeEmoji rfl (by decide),
   (value_or_error_shape Json.maybeInaccessibleMessage Json.messageOrigin Json.chatMember
      Json.reactionType Json.menuButton Json.chatBoostSource Json.inputMessageContent
      Json.webAppWithBadText).2.2.2.2.1.2.2.1 "web_app" .MenuButtonWebApp rfl
      (by decide),
   (value_or_error_shape Json.maybeInaccessibleMessage Json.messageOrigin Json.chatMember
      Json.reactionType Json.menuButton Json.chatBoostSource Json.inputMessageContent
      Json.giveawayWithBadId).2.2.2.2.2.1.2.2.1 "giveaway" .ChatBoostSourceGiveaway rfl
      (by decide),
   (value_or_error_shape Json.maybeInaccessibleMessage Json.messageOrigin Json.chatMember
      Json.reactionType Json.menuButton Json.chatBoostSource Json.inputMessageContent
      Json.textWithBadParseMode).2.2.2.2.2.2.2.2.1
      ⟨some "hi", none, none, none, none⟩ .InputTextMessageContent rfl rfl,
   rfl,
   (value_or_error_shape Json.maybeInaccessibleMessage Json.messageOrigin Json.chatMember
      Json.reactionType Json.menuButton Json.chatBoostSource Json.inputMessageContent
      Json.userPayload).2.1.2.2.2 rfl⟩

/-! ## Probe failures -/

/-- C8: for each of the seven resolvers, when the probe-stage decode fails
the resolver returns a nil value and exactly the probe decoder's error; the
result does not mention the full decoder, and the error is not "unknown
type". -/
theorem probe_error_is_returned {Raw Float64 : Type}
    {TD : MaybeInaccessibleMessageVariant → Type}
    {TO : MessageOriginVariant → Type} {TC : ChatMemberVariant → Type}
    {TR : ReactionTypeVariant → Type} {TM : MenuButtonVariant → Type}
    {TB : ChatBoostSourceVariant → Type} {TI : InputMessageContentVariant → Type}
    (JD : Unmarshaler Raw Int MaybeInaccessibleMessageVariant TD)
    (JO : Unmarshaler Raw String MessageOriginVariant TO)
    (JC : Unmarshaler Raw String ChatMemberVariant TC)
    (JR : Unmarshaler Raw String ReactionTypeVariant TR)
    (JM : Unmarshaler Raw String MenuButtonVariant TM)
    (JB : Unmarshaler Raw String ChatBoostSourceVariant TB)
    (JI : Unmarshaler Raw (InputMessageContentProbe Float64) InputMessageContentVariant TI)
    (rawBytes : Raw) :
    (∀ e, JD.probe rawBytes = .error e →
      unmarshalMaybeInaccessibleMessage JD rawBytes = (none, some (Error.json e))
      ∧ (unmarshalMaybeInaccessibleMessage JD rawBytes).2 ≠ some (Error.errorsNew "unknown type"))
    ∧ (∀ e, JO.probe rawBytes = .error e →
      unmarshalMessageOrigin JO rawBytes = (none, some (Error.json e))
      ∧ (unmarshalMessageOrigin JO rawBytes).2 ≠ some (Error.errorsNew "unknown type"))
    ∧ (∀ e, JC.probe rawBytes = .error e →
      unmarshalChatMember JC rawBytes = (none, some (Error.json e))
      ∧ (unmarshalChatMember JC rawBytes).2 ≠ some (Error.errorsNew "unknown type"))
    ∧ (∀ e, JR.probe rawBytes = .error e →
      unmarshalReactionType JR rawBytes = (none, some (Error.json e))
      ∧ (unmarshalReactionType JR rawBytes).2 ≠ some (Error.errorsNew "unknown type"))
    ∧ (∀ e, JM.probe rawBytes = .error e →
      unmarshalMenuButton JM rawBytes = (none, some (Error.json e))
      ∧ (unmarshalMenuButton JM rawBytes).2 ≠ some (Error.errorsNew "unknown type"))
    ∧ (∀ e, JB.probe rawBytes = .error e →
      unmarshalChatBoostSource JB rawBytes = (none, some (Error.json e))
      ∧ (unmarshalChatBoostSource JB rawBytes).2 ≠ some (Error.errorsNew "unknown type"))
    ∧ (∀ e, JI.probe rawBytes = .error e →
      unmarshalInputMessageContent JI rawBytes = (none, some (Error.json e))
      ∧ (unmarshalInputMessageContent JI rawBytes).2 ≠ some (Error.errorsNew "unknown type")) := by
  refine ⟨?_, ?_, ?_, ?_, ?_, ?_, ?_⟩
  · intro e h
    have hr : unmarshalMaybeInaccessibleMessage JD rawBytes = (none, some (Error.json e)) := by
      simp only [unmarshalMaybeInaccessibleMessage, h]
    rw [hr]
    exact ⟨rfl, by simp⟩
  · intro e h
    have hr : unmarshalMessageOrigin JO rawBytes = (none, some (Error.json e)) := by
      simp only [unmarshalMessageOrigin, h]
    rw [hr]
    exact ⟨rfl, by simp⟩
  · intro e h
    have hr : unmarshalChatMember JC rawBytes = (none, some (Error.json e)) := by
      simp only [unmarshalChatMember, h]
    rw [hr]
    exact ⟨rfl, by simp⟩
  · intro e h
    have hr : unmarshalReactionType JR rawBytes = (none, some (Error.json e)) := by
      simp only [unmarshalReactionType, h]
    rw [hr]
    exact ⟨rfl, by simp⟩
  · intro e h
    have hr : unmarshalMenuButton JM rawBytes = (none, some (Error.json e)) := by
      simp only [unmarshalMenuButton, h]
    rw [hr]
    exact ⟨rfl, by simp⟩
  · intro e h
    have hr : unmarshalChatBoostSource JB rawBytes = (none, some (Error.json e)) := by
      simp only [unmarshalChatBoostSource, h]
    rw [hr]
    exact ⟨rfl, by simp⟩
  · intro e h
    have hr : unmarshalInputMessageContent JI rawBytes = (none, some (Error.json e)) := by
      simp only [unmarshalInputMessageContent, h]
    rw [hr]
    exact ⟨rfl, by simp⟩

/-- Bytes cut off in the middle: all seven resolvers hand on the syntax error. -/
theorem probe_error_is_returned_witness :
    unmarshalMaybeInaccessibleMessage Json.maybeInaccessibleMessage Json.truncatedPayload
      = (none, some (Error.json (.SyntaxError "unexpected end of JSON input")))
    ∧ unmarshalMessageOrigin Json.messageOrigin Json.truncatedPayload
      = (none, some (Error.json (.SyntaxError "unexpected end of JSON input")))
    ∧ unmarshalChatMember Json.chatMember Json.truncatedPayload
      = (none, some (Error.json (.SyntaxError "unexpected end of JSON input")))
    ∧ unmarshalReactionType Json.reactionType Json.truncatedPayload
      = (none, some (Error.json (.SyntaxError "unexpected end of JSON input")))
    ∧ unmarshalMenuButton Json.menuButton Json.truncatedPayload
      = (none, some (Error.json (.SyntaxError "unexpected end of JSON input")))
    ∧ unmarshalChatBoostSource Json.chatBoostSource Json.truncatedPayload
      = (none, some (Error.json (.SyntaxError "unexpected end of JSON input")))
    ∧ unmarshalInputMessageContent Json.inputMessageContent Json.truncatedPayload
      = (none, some (Error.json (.SyntaxError "unexpected end of JSON input"))) := by
  have h := probe_error_is_returned Json.maybeInaccessibleMessage Json.messageOrigin
    Json.chatMember Json.reactionType Json.menuButton Json.chatBoostSource
    Json.inputMessageContent Json.truncatedPayload
  exact ⟨(h.1 _ rfl).1, (h.2.1 _ rfl).1, (h.2.2.1 _ rfl).1, (h.2.2.2.1 _ rfl).1,
    (h.2.2.2.2.1 _ rfl).1, (h.2.2.2.2.2.1 _ rfl).1, (h.2.2.2.2.2.2 _ rfl).1⟩

/-! ## Full-decode failures -/

/-- C9, as stated, fails: on `{"type": "user", "date": "x"}` the error that
`unmarshalMessageOrigin` returns is the very error of the full decoder of
`MessageOriginUser`, a type error of `encoding/json`; it is not an error
wrapped with context. -/
theorem full_decode_error_is_not_wrapped :
    (unmarshalMessageOrigin Json.messageOrigin Json.userWithBadDate).2
      = (Json.messageOrigin.decode .MessageOriginUser Json.userWithBadDate).2
    ∧ (unmarshalMessageOrigin Json.messageOrigin Json.userWithBadDate).2
      = some (Error.json (.UnmarshalTypeError "string" "date"))
    ∧ ¬ ∃ context inner,
        (unmarshalMessageOrigin Json.messageOrigin Json.userWithBadDate).2
          = some (Error.wrap context inner) := by
  refine ⟨rfl, rfl, ?_⟩
  rintro ⟨context, inner, h⟩
  have h2 : (unmarshalMessageOrigin Json.messageOrigin Json.userWithBadDate).2
      = some (Error.json (.UnmarshalTypeError "string" "date")) := rfl
  rw [h2] at h
  simp at h

/-- C9, amended: for each resolver, when the probe and the selection succeed
and the full decode of the selected variant `k` returns the error `e`, the
resolver returns the target of `k` together with exactly `e`: the decoder's
error as it is, with no context added. -/
theorem full_decode_error_is_returned_verbatim {Raw Float64 : Type}
    {TD : MaybeInaccessibleMessageVariant → Type}
    {TO : MessageOriginVariant → Type} {TC : ChatMemberVariant → Type}
    {TR : ReactionTypeVariant → Type} {TM : MenuButtonVariant → Type}
    {TB : ChatBoostSourceVariant → Type} {TI : InputMessageContentVariant → Type}
    (JD : Unmarshaler Raw Int MaybeInaccessibleMessageVariant TD)
    (JO : Unmarshaler Raw String MessageOriginVariant TO)
    (JC : Unmarshaler Raw String ChatMemberVariant TC)
    (JR : Unmarshaler Raw String ReactionTypeVariant TR)
    (JM : Unmarshaler Raw String MenuButtonVariant TM)
    (JB : Unmarshaler Raw String ChatBoostSourceVariant TB)
    (JI : Unmarshaler Raw (InputMessageContentProbe Float64) InputMessageContentVariant TI)
    (rawBytes : Raw) :
    (∀ (date : Int) (e : Error),
      JD.probe rawBytes = .ok date → (JD.decode (variantOfDate date) rawBytes).2 = some e →
      unmarshalMaybeInaccessibleMessage JD rawBytes
        = (some ⟨variantOfDate date, (JD.decode (variantOfDate date) rawBytes).1⟩, some e))
    ∧ (∀ (tag : String) (k : MessageOriginVariant) (e : Error),
      JO.probe rawBytes = .ok tag → (tag, k) ∈ messageOriginTable →
      (JO.decode k rawBytes).2 = some e →
      unmarshalMessageOrigin JO rawBytes = (some ⟨k, (JO.decode k rawBytes).1⟩, some e))
    ∧ (∀ (tag : String) (k : ChatMemberVariant) (e : Error),
      JC.probe rawBytes = .ok tag → (tag, k) ∈ chatMemberTable →
      (JC.decode k rawBytes).2 = some e →
      unmarshalChatMember JC rawBytes = (some ⟨k, (JC.decode k rawBytes).1⟩, some e))
    ∧ (∀ (tag : String) (k : ReactionTypeVariant) (e : Error),
      JR.probe rawBytes = .ok tag → (tag, k) ∈ reactionTypeTable →
      (JR.decode k rawBytes).2 = some e →
      unmarshalReactionType JR rawBytes = (some ⟨k, (JR.decode k rawBytes).1⟩, some e))
    ∧ (∀ (tag : String) (k : MenuButtonVariant) (e : Error),
      JM.probe rawBytes = .ok tag → (tag, k) ∈ menuButtonTable →
      (JM.decode k rawBytes).2 = some e →
      unmarshalMenuButton JM rawBytes = (some ⟨k, (JM.decode k rawBytes).1⟩, some e))
    ∧ (∀ (tag : String) (k : ChatBoostSourceVariant) (e : Error),
      JB.probe rawBytes = .ok tag → (tag, k) ∈ chatBoostSourceTable →
      (JB.decode k rawBytes).2 = some e →
      unmarshalChatBoostSource JB rawBytes = (some ⟨k, (JB.decode k rawBytes).1⟩, some e))
    ∧ (∀ (temp : InputMessageContentProbe Float64) (k : InputMessageContentVariant) (e : Error),
      JI.probe rawBytes = .ok temp → firstSet (inputMessageContentRules temp) = some k →
      (JI.decode k rawBytes).2 = some e →
      unmarshalInputMessageContent JI rawBytes = (some ⟨k, (JI.decode k rawBytes).1⟩, some e)) := by
  refine ⟨?_, ?_, ?_, ?_, ?_, ?_, ?_⟩
  · intro date e hp he
    rw [unmarshalMaybeInaccessibleMessage_of_probe JD rawBytes date hp]
    simp [decodeInto, he]
  · intro tag k e hp hm he
    rw [unmarshalMessageOrigin_of_probe JO rawBytes tag hp,
      lookup_of_mem _ _ _ messageOriginTable_literals_nodup hm]
    simp [decodeInto, he]
  · intro tag k e hp hm he
    rw [unmarshalChatMember_of_probe JC rawBytes tag hp,
      lookup_of_mem _ _ _ chatMemberTable_literals_nodup hm]
    simp [decodeInto, he]
  · intro tag k e hp hm he
    rw [unmarshalReactionType_of_probe JR rawBytes tag hp,
      lookup_of_mem _ _ _ reactionTypeTable_literals_nodup hm]
    simp [decodeInto, he]
  · intro tag k e hp hm he
    rw [unmarshalMenuButton_of_probe JM rawBytes tag hp,
      lookup_of_mem _ _ _ menuButtonTable_literals_nodup hm]
    simp [decodeInto, he]
  · intro tag k e hp hm he
    rw [unmarshalChatBoostSource_of_probe JB rawBytes tag hp,
      lookup_of_mem _ _ _ chatBoostSourceTable_literals_nodup hm]
    simp [decodeInto, he]
  · intro temp k e hp hs he
    rw [unmarshalInputMessageContent_of_probe JI rawBytes temp hp, hs]
    simp [decodeInto, he]

/-- One payload per resolver whose tag is fine and whose other field has the
wrong type: the type error comes back as it is. -/
theorem full_decode_error_is_returned_verbatim_witness :
    (unmarshalMaybeInaccessibleMessage Json.maybeInaccessibleMessage Json.messageWithBadId).2
      = some (Error.json (.UnmarshalTypeError "string" "message_id"))
    ∧ (unmarshalMessageOrigin Json.messageOrigin Json.userWithBadDate).2
      = some (Error.json (.UnmarshalTypeError "string" "date"))
    ∧ (unmarshalChatMember Json.chatMember Json.kickedWithBadDate).2
      = some (Error.json (.UnmarshalTypeError "string" "until_date"))
    ∧ (unmarshalReactionType Json.reactionType Json.emojiWithBadEmoji).2
      = some (Error.json (.UnmarshalTypeError "number" "emoji"))
    ∧ (unmarshalMenuButton Json.menuButton Json.webAppWithBadText).2
      = some (Error.json (.UnmarshalTypeError "number" "text"))
    ∧ (unmarshalChatBoostSource Json.chatBoostSource Json.giveawayWithBadId).2
      = some (Error.json (.UnmarshalTypeError "string" "giveaway_message_id"))
    ∧ (unmarshalInputMessageContent Json.inputMessageContent Json.textWithBadParseMode).2
      = some (Error.json (.UnmarshalTypeError "number" "parse_mode")) :=
  ⟨congrArg Prod.snd
      ((full_decode_error_is_returned_verbatim Json.maybeInaccessibleMessage Json.messageOrigin
        Json.chatMember Json.reactionType Json.menuButton Json.chatBoostSource
        Json.inputMessageContent Json.messageWithBadId).1 5 _ rfl rfl),
   congrArg Prod.snd
      ((full_decode_error_is_returned_verbatim Json.maybeInaccessibleMessage Json.messageOrigin
        Json.chatMember Json.reactionType Json.menuButton Json.chatBoostSource
        Json.inputMessageContent Json.userWithBadDate).2.1 "user" .MessageOriginUser _ rfl
        (by decide) rfl),
   congrArg Prod.snd
      ((full_decode_error_is_returned_verbatim Json.maybeInaccessibleMessage Json.messageOrigin
        Json.chatMember Json.reactionType Json.menuButton Json.chatBoostSource
        Json.inputMessageContent Json.kickedWithBadDate).2.2.1 "kicked" .ChatMemberBanned _ rfl
        (by decide) rfl),
   congrArg Prod.snd
      ((full_decode_error_is_returned_verbatim Json.maybeInaccessibleMessage Json.messageOrigin
        Json.chatMember Json.reactionType Json.menuButton Json.chatBoostSource
        Json.inputMessageContent Json.emojiWithBadEmoji).2.2.2.1 "emoji" .ReactionTypeEmoji _ rfl
        (by decide) rfl),
   congrArg Prod.snd
      ((full_decode_error_is_returned_verbatim Json.maybeInaccessibleMessage Json.messageOrigin
        Json.chatMember Json.reactionType Json.menuButton Json.chatBoostSource
        Json.inputMessageContent Json.webAppWithBadText).2.2.2.2.1 "web_app" .MenuButtonWebApp _
        rfl (by decide) rfl),
   congrArg Prod.snd
      ((full_decode_error_is_returned_verbatim Json.maybeInaccessibleMessage Json.messageOrigin
        Json.chatMember Json.reactionType Json.menuButton Json.chatBoostSource
        Json.inputMessageContent Json.giveawayWithBadId).2.2.2.2.2.1 "giveaway"
        .ChatBoostSourceGiveaway _ rfl (by decide) rfl),
   congrArg Prod.snd
      ((full_decode_error_is_returned_verbatim Json.maybeInaccessibleMessage Json.messageOrigin
        Json.chatMember Json.reactionType Json.menuButton Json.chatBoostSource
        Json.inputMessageContent Json.textWithBadParseMode).2.2.2.2.2.2
        ⟨some "hi", none, none, none, none⟩ .InputTextMessageContent _ rfl rfl rfl)⟩

/-! ## The artifacts of one group -/

namespace Codegen

/-- C10: for every group `g`, `GenerateMethod` returns, in this order, at
most one parameter record, at most one uploadable predicate and exactly one
method stub.  Without fields the list is the stub alone; with fields it is
the record and the stub, with the predicate of `generateHasUploadable`
between them exactly when that one was generated.  So the list has one, two
or three elements, its last element is the stub of `generateMethod`, a
predicate is never present without a record, and the record, when present, is
first and is `GenerateType` of the group named `upperFirstLetter(g.Name)`
followed by "Params", described as "contains the method's parameters", with
the fields of `g` as they are. -/
theorem GenerateMethod_artifacts (H : Helpers) (g : Group) :
    (g.Fields = [] →
      GenerateMethod H g = [generateMethod H (H.upperFirstLetter g.Name) false g])
    ∧ (g.Fields ≠ [] →
      (generateHasUploadable H (H.upperFirstLetter g.Name ++ "Params") g.Fields).2 = false →
      GenerateMethod H g =
        [H.GenerateType
          { Name := H.upperFirstLetter g.Name ++ "Params"
            Description := "contains the method's parameters"
            Fields := g.Fields },
         generateMethod H (H.upperFirstLetter g.Name) true g])
    ∧ (g.Fields ≠ [] →
      (generateHasUploadable H (H.upperFirstLetter g.Name ++ "Params") g.Fields).2 = true →
      GenerateMethod H g =
        [H.GenerateType
          { Name := H.upperFirstLetter g.Name ++ "Params"
            Description := "contains the method's parameters"
            Fields := g.Fields },
         (generateHasUploadable H (H.upperFirstLetter g.Name ++ "Params") g.Fields).1,
         generateMethod H (H.upperFirstLetter g.Name) true g])
    ∧ 1 ≤ (GenerateMethod H g).length ∧ (GenerateMethod H g).length ≤ 3
    ∧ (GenerateMethod H g).getLast?
        = some (generateMethod H (H.upperFirstLetter g.Name) (g.Fields.length != 0) g) := by
  have hlen : ∀ fs : List Field, fs ≠ [] → (fs.length != 0) = true := by
    intro fs hfs
    cases fs with
    | nil => exact absurd rfl hfs
    | cons a rest => rfl
  refine ⟨?_, ?_, ?_, ?_, ?_, ?_⟩
  · intro h
    simp [GenerateMethod, h]
  · intro h hp
    simp [GenerateMethod, hlen _ h, hp]
  · intro h hp
    simp [GenerateMethod, hlen _ h, hp]
  · simp [GenerateMethod]
  · simp only [GenerateMethod]
    split_ifs <;> simp
  · simp [GenerateMethod]

/-- A group without fields, one with a plain field, and one with an upload
field: one, two and three artifacts. -/
theorem GenerateMethod_artifacts_witness :
    GenerateMethod sampleHelpers sampleGetMe = [generateMethod sampleHelpers "getMe" false sampleGetMe]
    ∧ GenerateMethod sampleHelpers sampleSendDice =
        [sampleHelpers.GenerateType
          { Name := "sendDice" ++ "Params"
            Description := "contains the method's parameters"
            Fields := sampleSendDice.Fields },
         generateMethod sampleHelpers "sendDice" true sampleSendDice]
    ∧ GenerateMethod sampleHelpers sampleSendPhoto =
        [sampleHelpers.GenerateType
          { Name := "sendPhoto" ++ "Params"
            Description := "contains the method's parameters"
            Fields := sampleSendPhoto.Fields },
         (generateHasUploadable sampleHelpers ("sendPhoto" ++ "Params") sampleSendPhoto.Fields).1,
         generateMethod sampleHelpers "sendPhoto" true sampleSendPhoto] :=
  ⟨(GenerateMethod_artifacts sampleHelpers sampleGetMe).1 rfl,
   (GenerateMethod_artifacts sampleHelpers sampleSendDice).2.1 (by decide) rfl,
   (GenerateMethod_artifacts sampleHelpers sampleSendPhoto).2.2.1 (by decide) rfl⟩

end Codegen

/-! ## Groups without fields, and the uploadable predicate -/

namespace Codegen

/-- The slice the loop of `generateHasUploadable` builds is the list of
upload checks of the fields of type `InputFile`. -/
theorem inputFileFields_eq (H : Helpers) (fields : List Field) :
    (fields.filterMap fun f =>
      if H.typeOf f.Name f.Type_ = "InputFile" then
        some ("d." ++ H.snakeToPascal f.Name ++ ".NeedsUpload()")
      else none) = uploadChecks H fields := by
  induction fields with
  | nil => rfl
  | cons f rest ih =>
    by_cases hf : H.typeOf f.Name f.Type_ = "InputFile"
    · simp only [uploadChecks] at ih
      simp [uploadChecks, List.filterMap_cons, hf, ih]
    · simp only [uploadChecks] at ih
      simp [uploadChecks, List.filterMap_cons, hf, ih]

/-- There is an upload check exactly when some field has type `InputFile`. -/
theorem uploadChecks_eq_nil_iff (H : Helpers) (fields : List Field) :
    uploadChecks H fields = [] ↔ ∀ f ∈ fields, H.typeOf f.Name f.Type_ ≠ "InputFile" := by
  simp [uploadChecks, List.filter_eq_nil_iff]

/-- `generateHasUploadable` in terms of the upload checks. -/
theorem generateHasUploadable_eq (H : Helpers) (name : String) (fields : List Field) :
    generateHasUploadable H name fields =
      (if (!(uploadChecks H fields).isEmpty) = true then
        "func (d " ++ name ++ ") HasUploadable() bool \x7b\nreturn "
          ++ " || ".intercalate (uploadChecks H fields) ++ "\n\x7d"
       else "",
       !(uploadChecks H fields).isEmpty) := by
  simp only [generateHasUploadable, inputFileFields_eq]

/-- C11: for every group with an empty field list, `GenerateMethod` returns
exactly one artifact, the method stub: no parameter record and no uploadable
predicate; the stub has an empty parameter list and passes `nil` as the
request parameters. -/
theorem no_fields_stub_only (H : Helpers) (g : Group) (h : g.Fields = []) :
    GenerateMethod H g = [generateMethod H (H.upperFirstLetter g.Name) false g]
    ∧ (GenerateMethod H g).length = 1
    ∧ ∃ returnType,
        generateMethod H (H.upperFirstLetter g.Name) false g
          = stubText (H.upperFirstLetter g.Name) g.Description "" returnType g.Name "nil" := by
  refine ⟨?_, ?_, ?_⟩
  · simp [GenerateMethod, h]
  · simp [GenerateMethod, h]
  · exact ⟨_, rfl⟩

/-- The group `getMe`, without fields: the stub `getMe()` passing `nil`. -/
theorem no_fields_stub_only_witness :
    GenerateMethod sampleHelpers sampleGetMe
      = [stubText "getMe" "Returns the bot." "" "json.RawMessage" "getMe" "nil"] :=
  (no_fields_stub_only sampleHelpers sampleGetMe rfl).1

/-- C12: `generateHasUploadable` emits a predicate if and only if at least
one field has the resolved type "InputFile".  With such a field it returns
`generated = true` and the text of the predicate, which joins at least one
upload check; without one it returns `generated = false` and the empty text,
never a predicate that is always false.  The output of `GenerateMethod`
carries that text between record and stub in the first case, and no predicate
in the second: the stub alone, or the record and the stub. -/
theorem predicate_iff_some_input_file (H : Helpers) (name : String) (g : Group) :
    ((generateHasUploadable H name g.Fields).2 = true
        ↔ ∃ f ∈ g.Fields, H.typeOf f.Name f.Type_ = "InputFile")
    ∧ ((∃ f ∈ g.Fields, H.typeOf f.Name f.Type_ = "InputFile") →
        generateHasUploadable H name g.Fields
          = ("func (d " ++ name ++ ") HasUploadable() bool \x7b\nreturn "
              ++ " || ".intercalate
                  ((g.Fields.filter fun f => H.typeOf f.Name f.Type_ = "InputFile").map
                    fun f => "d." ++ H.snakeToPascal f.Name ++ ".NeedsUpload()")
              ++ "\n\x7d", true)
        ∧ (g.Fields.filter fun f => H.typeOf f.Name f.Type_ = "InputFile") ≠ [])
    ∧ ((∀ f ∈ g.Fields, H.typeOf f.Name f.Type_ ≠ "InputFile") →
        generateHasUploadable H name g.Fields = ("", false))
    ∧ ((∃ f ∈ g.Fields, H.typeOf f.Name f.Type_ = "InputFile") →
        GenerateMethod H g =
          [H.GenerateType
            { Name := H.upperFirstLetter g.Name ++ "Params"
              Description := "contains the method's parameters"
              Fields := g.Fields },
           "func (d " ++ (H.upperFirstLetter g.Name ++ "Params")
              ++ ") HasUploadable() bool \x7b\nreturn "
              ++ " || ".intercalate
                  ((g.Fields.filter fun f => H.typeOf f.Name f.Type_ = "InputFile").map
                    fun f => "d." ++ H.snakeToPascal f.Name ++ ".NeedsUpload()")
              ++ "\n\x7d",
           generateMethod H (H.upperFirstLetter g.Name) true g])
    ∧ ((∀ f ∈ g.Fields, H.typeOf f.Name f.Type_ ≠ "InputFile") →
        GenerateMethod H g = [generateMethod H (H.upperFirstLetter g.Name) false g]
        ∨ GenerateMethod H g =
            [H.GenerateType
              { Name := H.upperFirstLetter g.Name ++ "Params"
                Description := "contains the method's parameters"
                Fields := g.Fields },
             generateMethod H (H.upperFirstLetter g.Name) true g]) := by
  have hnone : ∀ n : String, (∀ f ∈ g.Fields, H.typeOf f.Name f.Type_ ≠ "InputFile") →
      generateHasUploadable H n g.Fields = ("", false) := by
    intro n hno
    rw [generateHasUploadable_eq, (uploadChecks_eq_nil_iff H g.Fields).mpr hno]
    rfl
  have hsome : ∀ n : String, (∃ f ∈ g.Fields, H.typeOf f.Name f.Type_ = "InputFile") →
      generateHasUploadable H n g.Fields
        = ("func (d " ++ n ++ ") HasUploadable() bool \x7b\nreturn "
            ++ " || ".intercalate (uploadChecks H g.Fields) ++ "\n\x7d", true)
      ∧ uploadChecks H g.Fields ≠ [] := by
    rintro n ⟨f, hf, heq⟩
    have hne : uploadChecks H g.Fields ≠ [] := by
      intro hnil
      exact (uploadChecks_eq_nil_iff H g.Fields).mp hnil f hf heq
    refine ⟨?_, hne⟩
    rw [generateHasUploadable_eq]
    cases hu : uploadChecks H g.Fields with
    | nil => exact absurd hu hne
    | cons a rest => rfl
  have hlen : g.Fields ≠ [] → (g.Fields.length != 0) = true := by
    intro hf
    cases hg : g.Fields with
    | nil => exact absurd hg hf
    | cons a rest => rfl
  refine ⟨?_, ?_, hnone name, ?_, ?_⟩
  · constructor
    · intro hgen
      by_contra hex
      have hno : ∀ f ∈ g.Fields, H.typeOf f.Name f.Type_ ≠ "InputFile" := by
        intro f hf heq
        exact hex ⟨f, hf, heq⟩
      rw [hnone name hno] at hgen
      simp at hgen
    · intro hex
      rw [(hsome name hex).1]
  · intro hex
    refine ⟨(hsome name hex).1, ?_⟩
    intro hnil
    apply (hsome name hex).2
    simp [uploadChecks, hnil]
  · intro hex
    have hf : g.Fields ≠ [] := by
      obtain ⟨f, hmem, _⟩ := hex
      intro hnil
      rw [hnil] at hmem
      simp at hmem
    simp only [GenerateMethod, hlen hf, (hsome _ hex).1]
    simp [uploadChecks]
  · intro hno
    by_cases hf : g.Fields = []
    · left
      simp [GenerateMethod, hf]
    · right
      simp [GenerateMethod, hlen hf, hnone _ hno]

/-- The group `sendPhoto` has an upload field: the predicate is generated
with its text and stands between record and stub; `sendDice` has none, and its
artifacts are the record and the stub. -/
theorem predicate_iff_some_input_file_witness :
    generateHasUploadable sampleHelpers "SendPhotoParams" sampleSendPhoto.Fields
      = ("func (d SendPhotoParams) HasUploadable() bool \x7b\nreturn d.photo.NeedsUpload()\n\x7d",
          true)
    ∧ (GenerateMethod sampleHelpers sampleSendPhoto).length = 3
    ∧ generateHasUploadable sampleHelpers "SendDiceParams" sampleSendDice.Fields = ("", false)
    ∧ (GenerateMethod sampleHelpers sampleSendDice
          = [generateMethod sampleHelpers "sendDice" false sampleSendDice]
        ∨ GenerateMethod sampleHelpers sampleSendDice =
            [sampleHelpers.GenerateType
              { Name := "sendDice" ++ "Params"
                Description := "contains the method's parameters"
                Fields := sampleSendDice.Fields },
             generateMethod sampleHelpers "sendDice" true sampleSendDice]) :=
  ⟨((predicate_iff_some_input_file sampleHelpers "SendPhotoParams" sampleSendPhoto).2.1
      ⟨{ Name := "photo", Type_ := "InputFile", Required := true }, by decide, rfl⟩).1.trans
      (by decide),
   congrArg List.length
      ((predicate_iff_some_input_file sampleHelpers "SendPhotoParams" sampleSendPhoto).2.2.2.1
        ⟨{ Name := "photo", Type_ := "InputFile", Required := true }, by decide, rfl⟩),
   (predicate_iff_some_input_file sampleHelpers "SendDiceParams" sampleSendDice).2.2.1
      (by decide),
   (predicate_iff_some_input_file sampleHelpers "SendDiceParams" sampleSendDice).2.2.2.2
      (by decide)⟩

/-- C13: when `generateHasUploadable` emits a predicate for the record name
`N`, its text is "func (d N) HasUploadable() bool", an opening brace, a line
"return E" and a closing brace, where `E` joins with " || " the terms
"d.<snakeToPascal(name)>.NeedsUpload()" of the fields of type "InputFile", in
schema order, and of no other field; with exactly one such field `E` is that
field's own check. -/
theorem predicate_text (H : Helpers) (name : String) (fields : List Field)
    (h : (generateHasUploadable H name fields).2 = true) :
    (generateHasUploadable H name fields).1
      = "func (d " ++ name ++ ") HasUploadable() bool \x7b\nreturn "
          ++ " || ".intercalate
              ((fields.filter fun f => H.typeOf f.Name f.Type_ = "InputFile").map
                fun f => "d." ++ H.snakeToPascal f.Name ++ ".NeedsUpload()")
          ++ "\n\x7d"
    ∧ ∀ f, (fields.filter fun f => H.typeOf f.Name f.Type_ = "InputFile") = [f] →
        (generateHasUploadable H name fields).1
          = "func (d " ++ name ++ ") HasUploadable() bool \x7b\nreturn "
              ++ ("d." ++ H.snakeToPascal f.Name ++ ".NeedsUpload()") ++ "\n\x7d" := by
  rw [generateHasUploadable_eq] at h ⊢
  simp only at h
  have htext : (if (!(uploadChecks H fields).isEmpty) = true then
        "func (d " ++ name ++ ") HasUploadable() bool \x7b\nreturn "
          ++ " || ".intercalate (uploadChecks H fields) ++ "\n\x7d"
       else "")
      = "func (d " ++ name ++ ") HasUploadable() bool \x7b\nreturn "
          ++ " || ".intercalate (uploadChecks H fields) ++ "\n\x7d" := by
    rw [if_pos h]
  refine ⟨htext, ?_⟩
  intro f hf
  show (if (!(uploadChecks H fields).isEmpty) = true then _ else _) = _
  rw [htext]
  simp only [uploadChecks, hf, List.map_cons, List.map_nil]
  rfl

/-- Two upload fields around a plain one give two terms in schema order; one
upload field gives its own check alone. -/
theorem predicate_text_witness :
    (generateHasUploadable sampleHelpers "SendMediaParams" sampleSendMedia.Fields).1
      = "func (d SendMediaParams) HasUploadable() bool \x7b\nreturn d.photo.NeedsUpload() || d.thumbnail.NeedsUpload()\n\x7d"
    ∧ (generateHasUploadable sampleHelpers "SendPhotoParams" sampleSendPhoto.Fields).1
      = "func (d SendPhotoParams) HasUploadable() bool \x7b\nreturn d.photo.NeedsUpload()\n\x7d" :=
  ⟨(predicate_text sampleHelpers "SendMediaParams" sampleSendMedia.Fields rfl).1.trans
      (by decide),
   ((predicate_text sampleHelpers "SendPhotoParams" sampleSendPhoto.Fields rfl).2
      { Name := "photo", Type_ := "InputFile", Required := true } (by decide)).trans
      (by decide)⟩

/-! ## The method stub -/

/-- C14: the response type of the stub is `typeOf(g.Name, t)` when
`extractReturnType(g.Description)` yields exactly the one candidate `t`, and
"json.RawMessage" when it yields none or two or more; the stub uses it both as
the declared type of `data` and as the type argument of `doHTTP`. -/
theorem response_type (H : Helpers) (name : String) (hasParams : Bool) (g : Group) :
    (∀ t, H.extractReturnType g.Description = [t] →
      generateMethod H name hasParams g
        = stubText name g.Description (if hasParams then "params " ++ name ++ "Params" else "")
            (H.typeOf g.Name t) g.Name (if hasParams then "params" else "nil"))
    ∧ ((H.extractReturnType g.Description).length ≠ 1 →
      generateMethod H name hasParams g
        = stubText name g.Description (if hasParams then "params " ++ name ++ "Params" else "")
            "json.RawMessage" g.Name (if hasParams then "params" else "nil")) := by
  constructor
  · intro t ht
    simp only [generateMethod, stubText, ht]
  · intro hlen
    have hm : (match H.extractReturnType g.Description with
        | [t] => H.typeOf g.Name t
        | _ => "json.RawMessage") = "json.RawMessage" := by
      split
      · rename_i t ht
        rw [ht] at hlen
        exact absurd rfl hlen
      · rfl
    simp only [generateMethod, stubText, hm]

/-- One candidate, none, and two candidates. -/
theorem response_type_witness :
    generateMethod (sampleHelpersFinding ["Message"]) "SendDice" true sampleSendDice
      = stubText "SendDice" "Sends a dice." "params SendDiceParams" "Message" "sendDice" "params"
    ∧ generateMethod (sampleHelpersFinding []) "SendDice" true sampleSendDice
      = stubText "SendDice" "Sends a dice." "params SendDiceParams" "json.RawMessage" "sendDice"
          "params"
    ∧ generateMethod (sampleHelpersFinding ["Message", "Boolean"]) "SendDice" true sampleSendDice
      = stubText "SendDice" "Sends a dice." "params SendDiceParams" "json.RawMessage" "sendDice"
          "params" :=
  ⟨((response_type (sampleHelpersFinding ["Message"]) "SendDice" true sampleSendDice).1
      "Message" rfl).trans rfl,
   ((response_type (sampleHelpersFinding []) "SendDice" true sampleSendDice).2
      (by decide)).trans rfl,
   ((response_type (sampleHelpersFinding ["Message", "Boolean"]) "SendDice" true
      sampleSendDice).2 (by decide)).trans rfl⟩

/-! ## Malformed groups -/

/-- C15, as stated, fails: for a group whose field has an empty type
descriptor `GenerateMethod` reports nothing and emits its artifacts, here the
parameter record and the method stub. -/
theorem empty_type_descriptor_still_emits :
    GenerateMethod sampleHelpers sampleUntyped
      = [sampleHelpers.GenerateType
          { Name := "sendThingParams"
            Description := "contains the method's parameters"
            Fields := sampleUntyped.Fields },
         generateMethod sampleHelpers "sendThing" true sampleUntyped]
    ∧ GenerateMethod sampleHelpers sampleUntyped ≠ [] := by
  refine ⟨rfl, ?_⟩
  simp [GenerateMethod]

/-- C15, amended: `GenerateMethod` checks nothing and has no error result;
for a group with an empty name or with a field whose type descriptor is empty
it returns what it returns for any group: a list that is not empty, ends with
the method stub and, when the group has fields, starts with the parameter
record. -/
theorem malformed_group_still_emits (H : Helpers) (g : Group)
    (_h : g.Name = "" ∨ ∃ f ∈ g.Fields, f.Type_ = "") :
    GenerateMethod H g ≠ []
    ∧ (GenerateMethod H g).getLast?
        = some (generateMethod H (H.upperFirstLetter g.Name) (g.Fields.length != 0) g)
    ∧ (g.Fields ≠ [] →
      (GenerateMethod H g).head?
        = some (H.GenerateType
            { Name := H.upperFirstLetter g.Name ++ "Params"
              Description := "contains the method's parameters"
              Fields := g.Fields })) := by
  refine ⟨?_, ?_, ?_⟩
  · simp [GenerateMethod]
  · simp [GenerateMethod]
  · intro hf
    have hlen : (g.Fields.length != 0) = true := by
      cases hg : g.Fields with
      | nil => exact absurd hg hf
      | cons a rest => rfl
    simp only [GenerateMethod, hlen]
    split_ifs <;> simp

/-- The group whose field has no type descriptor: the record comes first and
the stub last. -/
theorem malformed_group_still_emits_witness :
    GenerateMethod sampleHelpers sampleUntyped ≠ []
    ∧ (GenerateMethod sampleHelpers sampleUntyped).getLast?
        = some (generateMethod sampleHelpers "sendThing" true sampleUntyped)
    ∧ (GenerateMethod sampleHelpers sampleUntyped).head?
        = some (sampleHelpers.GenerateType
            { Name := "sendThing" ++ "Params"
              Description := "contains the method's parameters"
              Fields := sampleUntyped.Fields }) :=
  ⟨(malformed_group_still_emits sampleHelpers sampleUntyped
      (Or.inr ⟨{ Name := "thing", Type_ := "", Required := true }, by decide, rfl⟩)).1,
   (malformed_group_still_emits sampleHelpers sampleUntyped
      (Or.inr ⟨{ Name := "thing", Type_ := "", Required := true }, by decide, rfl⟩)).2.1,
   (malformed_group_still_emits sampleHelpers sampleUntyped
      (Or.inr ⟨{ Name := "thing", Type_ := "", Required := true }, by decide, rfl⟩)).2.2
      (by decide)⟩

/-! ## Stub and record of one group -/

/-- C16: the stub emitted for a group agrees with the record emitted for it.
Its function name is `upperFirstLetter(g.Name)` and the wire name passed to
`doHTTP` is `g.Name` as it is.  When the group has fields, the record of the
group named `<Name>Params` is emitted first and the stub, emitted last, takes
"params <Name>Params" and passes "params"; when it has none, no record is
emitted and the stub has an empty parameter list and passes "nil". -/
theorem stub_agrees_with_record (H : Helpers) (g : Group) :
    (g.Fields ≠ [] →
      (GenerateMethod H g).head?
        = some (H.GenerateType
            { Name := H.upperFirstLetter g.Name ++ "Params"
              Description := "contains the method's parameters"
              Fields := g.Fields })
      ∧ ∃ returnType,
          (GenerateMethod H g).getLast?
            = some (stubText (H.upperFirstLetter g.Name) g.Description
                ("params " ++ H.upperFirstLetter g.Name ++ "Params") returnType g.Name
                "params"))
    ∧ (g.Fields = [] →
      ∃ returnType,
        GenerateMethod H g
          = [stubText (H.upperFirstLetter g.Name) g.Description "" returnType g.Name "nil"]) := by
  constructor
  · intro hf
    have hlen : (g.Fields.length != 0) = true := by
      cases hg : g.Fields with
      | nil => exact absurd hg hf
      | cons a rest => rfl
    constructor
    · simp only [GenerateMethod, hlen]
      split_ifs <;> simp
    · have hlast : (GenerateMethod H g).getLast?
          = some (generateMethod H (H.upperFirstLetter g.Name) true g) := by
        simp [GenerateMethod, hlen]
      obtain ⟨returnType, hstub⟩ : ∃ returnType,
          generateMethod H (H.upperFirstLetter g.Name) true g
            = stubText (H.upperFirstLetter g.Name) g.Description
                ("params " ++ H.upperFirstLetter g.Name ++ "Params") returnType g.Name
                "params" := ⟨_, rfl⟩
      exact ⟨returnType, by rw [hlast, hstub]⟩
  · intro hf
    have hg : GenerateMethod H g = [generateMethod H (H.upperFirstLetter g.Name) false g] := by
      simp [GenerateMethod, hf]
    obtain ⟨returnType, hstub⟩ : ∃ returnType,
        generateMethod H (H.upperFirstLetter g.Name) false g
          = stubText (H.upperFirstLetter g.Name) g.Description "" returnType g.Name "nil" :=
      ⟨_, rfl⟩
    exact ⟨returnType, by rw [hg, hstub]⟩

/-- The group `sendDice`, with a field, and `getMe`, without. -/
theorem stub_agrees_with_record_witness :
    ((GenerateMethod sampleHelpers sampleSendDice).head?
        = some (sampleHelpers.GenerateType
            { Name := "sendDice" ++ "Params"
              Description := "contains the method's parameters"
              Fields := sampleSendDice.Fields })
      ∧ ∃ returnType,
          (GenerateMethod sampleHelpers sampleSendDice).getLast?
            = some (stubText "sendDice" "Sends a dice." ("params " ++ "sendDice" ++ "Params")
                returnType "sendDice" "params"))
    ∧ ∃ returnType,
        GenerateMethod sampleHelpers sampleGetMe
          = [stubText "getMe" "Returns the bot." "" returnType "getMe" "nil"] :=
  ⟨(stub_agrees_with_record sampleHelpers sampleSendDice).1 (by decide),
   (stub_agrees_with_record sampleHelpers sampleGetMe).2 rfl⟩

end Codegen

/-! ## Sending with the preferred parse mode -/

/-- C17: `Bot.Send` never overrides a parse mode that was chosen.  For a
request that is `ParseModeSettable`, a parse mode other than `ParseModeNone`
leaves the request as it is, and `ParseModeNone` is replaced by the bot's
`DefaultParseMode`, nothing else changing; a request that is not
`ParseModeSettable` is left as it is.  In every case the request's own `Send`
is what runs, once, on the bot's client and on the request as it then is, and
for a `Sendable` its result is the one returned. -/
theorem send_keeps_chosen_parse_mode {R O Msg : Type} (b : Bot R O Msg) (msg : Request R O) :
    (∀ mode, GetParseMode msg = some mode → mode ≠ ParseModeNone → (Bot.Send b msg).1 = msg)
    ∧ (GetParseMode msg = some ParseModeNone →
      GetParseMode (Bot.Send b msg).1 = some b.DefaultParseMode
      ∧ typeName (Bot.Send b msg).1 = typeName msg
      ∧ GetChatID (Bot.Send b msg).1 = GetChatID msg
      ∧ replyParametersOf (Bot.Send b msg).1 = replyParametersOf msg
      ∧ restOf (Bot.Send b msg).1 = restOf msg)
    ∧ (GetParseMode msg = none → (Bot.Send b msg).1 = msg)
    ∧ (Bot.Send b msg).2 = Send b.API (Bot.Send b msg).1
    ∧ (Bot.Send b msg).2.calls = [(Bot.Send b msg).1]
    ∧ (isSendable msg = true →
      (Bot.Send b msg).2.result = some (b.API.call (Bot.Send b msg).1)) := by
  refine ⟨?_, ?_, ?_, rfl, ?_, ?_⟩
  · intro mode hm hne
    cases msg <;> simp_all [Bot.Send, GetParseMode, SetParseMode]
  · intro hm
    cases msg <;>
      simp_all [Bot.Send, GetParseMode, SetParseMode, typeName, GetChatID, replyParametersOf,
        restOf]
  · intro hm
    cases msg <;> simp_all [Bot.Send, GetParseMode, SetParseMode]
  · cases msg <;> simp only [Bot.Send, GetParseMode, SetParseMode] <;>
      first
        | rfl
        | (split_ifs <;> rfl)
  · intro hs
    cases msg <;> simp only [Bot.Send, GetParseMode, SetParseMode] <;>
      first
        | rfl
        | (split_ifs <;> rfl)
        | (simp [isSendable] at hs)

/-- A message without a parse mode gets the bot's HTML; a photo with Markdown
keeps it; a dice has none and is left alone; each is sent once and the
client's answer is returned. -/
theorem send_keeps_chosen_parse_mode_witness :
    (Bot.Send sampleBot sampleSendPhotoRequest).1 = sampleSendPhotoRequest
    ∧ GetParseMode (Bot.Send sampleBot sampleSendMessage).1 = some ParseModeHTML
    ∧ GetChatID (Bot.Send sampleBot sampleSendMessage).1 = ChatID.ID 5
    ∧ (Bot.Send sampleBot sampleSendDiceRequest).1 = sampleSendDiceRequest
    ∧ (Bot.Send sampleBot sampleSendMessage).2.result
      = some (sampleBot.API.call (Bot.Send sampleBot sampleSendMessage).1) :=
  ⟨(send_keeps_chosen_parse_mode sampleBot sampleSendPhotoRequest).1 ParseModeMarkdown rfl
      (by decide),
   ((send_keeps_chosen_parse_mode sampleBot sampleSendMessage).2.1 rfl).1,
   ((send_keeps_chosen_parse_mode sampleBot sampleSendMessage).2.1 rfl).2.2.1,
   (send_keeps_chosen_parse_mode sampleBot sampleSendDiceRequest).2.2.1 rfl,
   (send_keeps_chosen_parse_mode sampleBot sampleSendMessage).2.2.2.2.2 rfl⟩

/-! ## Chat identifiers and reply parameters of a request -/

/-- C18: for each of the sixteen request types and every `id`, `SetChatID(id)`
followed by `GetChatID()` gives the numeric chat identifier `ID(id)`, for
`SendGame` too, which stores the bare number; `SetChatID` changes neither the
type nor the parse mode, the reply parameters or any other field. -/
theorem get_after_set_chat_id {R O : Type} (req : Request R O) (id : Int) :
    GetChatID (SetChatID id req) = ChatID.ID id
    ∧ typeName (SetChatID id req) = typeName req
    ∧ GetParseMode (SetChatID id req) = GetParseMode req
    ∧ replyParametersOf (SetChatID id req) = replyParametersOf req
    ∧ restOf (SetChatID id req) = restOf req := by
  cases req <;> exact ⟨rfl, rfl, rfl, rfl, rfl⟩

/-- C19: for each request type and every `id`, `SetReplyToMessageId(id)` puts
in place of the reply parameters a new value whose `MessageId` is `id`, whose
`ChatId` is what `GetChatID()` gave before the call and whose other fields are
zero, whatever was there before; the chat identifier, the type, the parse mode
and the other fields of the request stay as they were. -/
theorem reply_parameters_replaced {R O : Type} [Inhabited O] (req : Request R O) (id : Int) :
    replyParametersOf (SetReplyToMessageId id req)
      = some { MessageId := id, ChatId := GetChatID req, Other := default }
    ∧ GetChatID (SetReplyToMessageId id req) = GetChatID req
    ∧ typeName (SetReplyToMessageId id req) = typeName req
    ∧ GetParseMode (SetReplyToMessageId id req) = GetParseMode req
    ∧ restOf (SetReplyToMessageId id req) = restOf req := by
  cases req <;> exact ⟨rfl, rfl, rfl, rfl, rfl⟩

/-! ## The variant of a chat identifier -/

/-- The quote starts the bytes exactly when it is their first byte. -/
theorem isPrefixOf_quote (data : List UInt8) :
    List.isPrefixOf [34] data = true ↔ data.head? = some 34 := by
  cases data with
  | nil => simp [List.isPrefixOf]
  | cons b rest =>
    simp only [List.isPrefixOf, List.head?_cons, Option.some.injEq, Bool.and_true, beq_iff_eq]
    exact eq_comm

/-- C20: `unmarshalChatID` chooses by the first byte alone.  A first byte `"`
gives a `Username`, with the target and the error of the string decoder;
anything else, the empty input too, gives an `ID`, with the target and the
error of the number decoder; so the result is a `Username` exactly when the
input begins with `"`, whether or not the decode succeeds, and an input that
the number decoder rejects, such as a quoted string after white space, comes
back as an `ID` with that decoder's error. -/
theorem chat_id_variant_by_first_byte (U : ScalarUnmarshaler) (data : List UInt8) :
    (data.head? = some 34 →
      unmarshalChatID U data = (ChatID.Username (U.intoUsername data).1, (U.intoUsername data).2))
    ∧ (data.head? ≠ some 34 →
      unmarshalChatID U data = (ChatID.ID (U.intoID data).1, (U.intoID data).2))
    ∧ ((∃ name, (unmarshalChatID U data).1 = ChatID.Username name) ↔ data.head? = some 34)
    ∧ ((∃ id, (unmarshalChatID U data).1 = ChatID.ID id) ↔ data.head? ≠ some 34)
    ∧ (∀ e, data.head? ≠ some 34 → (U.intoID data).2 = some e →
      unmarshalChatID U data = (ChatID.ID (U.intoID data).1, some e)) := by
  by_cases hq : data.head? = some 34
  · have hp : List.isPrefixOf [34] data = true := (isPrefixOf_quote data).mpr hq
    simp [unmarshalChatID, hp, hq]
  · have hp : List.isPrefixOf [34] data = false := by
      rw [← Bool.not_eq_true]
      exact fun h => hq ((isPrefixOf_quote data).mp h)
    simp [unmarshalChatID, hp, hq]

/-- A quoted name, a number, and a quoted name after a space: the last is
read as a number and comes back as an `ID` with a type error. -/
theorem chat_id_variant_by_first_byte_witness :
    unmarshalChatID Json.scalars (Json.asciiBytes "\"@channel\"")
      = (ChatID.Username "@channel", none)
    ∧ unmarshalChatID Json.scalars (Json.asciiBytes "-1001234")
      = (ChatID.ID (-1001234), none)
    ∧ unmarshalChatID Json.scalars (Json.asciiBytes " \"@channel\"")
      = (ChatID.ID 0, some (Error.json (.UnmarshalTypeError "string" ""))) :=
  ⟨((chat_id_variant_by_first_byte Json.scalars (Json.asciiBytes "\"@channel\"")).1
      (by decide)).trans (by decide),
   ((chat_id_variant_by_first_byte Json.scalars (Json.asciiBytes "-1001234")).2.1
      (by decide)).trans (by decide),
   ((chat_id_variant_by_first_byte Json.scalars (Json.asciiBytes " \"@channel\"")).2.2.2.2
      (Error.json (.UnmarshalTypeError "string" "")) (by decide) (by decide)).trans (by decide)⟩

end Tgo
